import Mathlib

/-!
# NVIC and SysTick drivers (ARM Cortex-M, TM4C123) : shallow embedding

Embedding of `src/NVIC.c`, `src/NVIC.h` and `src/SysTick.c`.

* A `uint32` register holds a natural number below `2 ^ 32`; the predicate
  `RegFile.WF` says so for a whole register file.
* A C `int` / `uint32` value is represented by its 32-bit pattern.  The shifts
  `1 << n`, `0x07 << n`, `p << n` are taken modulo `2 ^ 32` (what the ARM
  compilers targeted by the drivers produce), `~` is the 32-bit complement.
* Every driver function without a call or a loop is a total function
  `RegFile → RegFile`.  `SysTick_Handler` runs on a `Machine`, a register file with the
  log of the callbacks invoked; `SysTick_StartBusyWait` takes the sequence of values
  that its loop reads from the control register, and fuel.
-/

namespace CortexM

/-! ## Machine words -/

/-- Conversion of a value to `uint32`. -/
def toU32 (n : Nat) : Nat := n % 2 ^ 32

/-- The C expression `a << n` on a 32-bit word: the low 32 bits of the shifted value. -/
def shl32 (a n : Nat) : Nat := (a <<< n) % 2 ^ 32

/-- The C expression `~a` on a 32-bit word. -/
def not32 (a : Nat) : Nat := 0xFFFFFFFF ^^^ (a % 2 ^ 32)

/-- Conversion of a C `int` result (here an exact integer) to `uint32`. -/
def intToU32 (i : Int) : Nat := (i % 2 ^ 32).toNat

/-! ## Constants of `NVIC.h` -/

def MEM_FAULT_PRIORITY_MASK : Nat := 0x000000E0
def MEM_FAULT_PRIORITY_BITS_POS : Nat := 5

def BUS_FAULT_PRIORITY_MASK : Nat := 0x0000E000
def BUS_FAULT_PRIORITY_BITS_POS : Nat := 13

def USAGE_FAULT_PRIORITY_MASK : Nat := 0x00E00000
def USAGE_FAULT_PRIORITY_BITS_POS : Nat := 21

def SVC_PRIORITY_MASK : Nat := 0xE0000000
def SVC_PRIORITY_BITS_POS : Nat := 29

def DEBUG_MONITOR_PRIORITY_MASK : Nat := 0x000000E0
def DEBUG_MONITOR_PRIORITY_BITS_POS : Nat := 5

def PENDSV_PRIORITY_MASK : Nat := 0x00E00000
def PENDSV_PRIORITY_BITS_POS : Nat := 21

def SYSTICK_PRIORITY_MASK : Nat := 0xE0000000
def SYSTICK_PRIORITY_BITS_POS : Nat := 29

def MEM_FAULT_ENABLE_MASK : Nat := 0x00010000
def BUS_FAULT_ENABLE_MASK : Nat := 0x00020000
def USAGE_FAULT_ENABLE_MASK : Nat := 0x00040000

/-! The enumerators of `NVIC_ExceptionType`, in declaration order. -/

def EXCEPTION_RESET_TYPE : Nat := 0
def EXCEPTION_NMI_TYPE : Nat := 1
def EXCEPTION_HARD_FAULT_TYPE : Nat := 2
def EXCEPTION_MEM_FAULT_TYPE : Nat := 3
def EXCEPTION_BUS_FAULT_TYPE : Nat := 4
def EXCEPTION_USAGE_FAULT_TYPE : Nat := 5
def EXCEPTION_SVC_TYPE : Nat := 6
def EXCEPTION_DEBUG_MONITOR_TYPE : Nat := 7
def EXCEPTION_PEND_SV_TYPE : Nat := 8
def EXCEPTION_SYSTICK_TYPE : Nat := 9

/-! ## The register file -/

/-- Modelled from the spec: the memory-mapped registers named by the missing header
`tm4c123gh6pm_registers.h`, "a fixed set of 32-bit memory locations": the IRQ-enable
register, the IRQ priority registers (`NVIC_PRI k` is the word at `&NVIC_PRI0_REG + k`),
the three system-priority registers, the system-handler-control register and the
SysTick control / reload / current registers.  The last field is the static callback
pointer of `SysTick.c` (`none` is `NULL_PTR`, `some f` the function with identifier `f`). -/
structure RegFile where
  NVIC_EN0_REG : Nat
  NVIC_PRI : Nat → Nat
  NVIC_SYSTEM_PRI1_REG : Nat
  NVIC_SYSTEM_PRI2_REG : Nat
  NVIC_SYSTEM_PRI3_REG : Nat
  NVIC_SYSTEM_SYSHNDCTRL : Nat
  SYSTICK_CTRL_REG : Nat
  SYSTICK_RELOAD_REG : Nat
  SYSTICK_CURRENT_REG : Nat
  g_SysTickCallBackPtr : Option Nat

/-- Every register holds a 32-bit value. -/
def RegFile.WF (s : RegFile) : Prop :=
  s.NVIC_EN0_REG < 2 ^ 32 ∧ (∀ k, s.NVIC_PRI k < 2 ^ 32) ∧
  s.NVIC_SYSTEM_PRI1_REG < 2 ^ 32 ∧ s.NVIC_SYSTEM_PRI2_REG < 2 ^ 32 ∧
  s.NVIC_SYSTEM_PRI3_REG < 2 ^ 32 ∧ s.NVIC_SYSTEM_SYSHNDCTRL < 2 ^ 32 ∧
  s.SYSTICK_CTRL_REG < 2 ^ 32 ∧ s.SYSTICK_RELOAD_REG < 2 ^ 32 ∧
  s.SYSTICK_CURRENT_REG < 2 ^ 32

/-- The register file with every register equal to zero and no callback registered. -/
def RegFile.zero : RegFile :=
  { NVIC_EN0_REG := 0, NVIC_PRI := fun _ => 0, NVIC_SYSTEM_PRI1_REG := 0,
    NVIC_SYSTEM_PRI2_REG := 0, NVIC_SYSTEM_PRI3_REG := 0, NVIC_SYSTEM_SYSHNDCTRL := 0,
    SYSTICK_CTRL_REG := 0, SYSTICK_RELOAD_REG := 0, SYSTICK_CURRENT_REG := 0,
    g_SysTickCallBackPtr := none }

/-- A register file with assorted non-zero contents and a registered callback. -/
def RegFile.sample : RegFile :=
  { NVIC_EN0_REG := 0x80000001, NVIC_PRI := fun _ => 0xA5A5A5A5,
    NVIC_SYSTEM_PRI1_REG := 0xFFFFFFFF, NVIC_SYSTEM_PRI2_REG := 0x12345678,
    NVIC_SYSTEM_PRI3_REG := 0xFFFFFFFF, NVIC_SYSTEM_SYSHNDCTRL := 0x00050000,
    SYSTICK_CTRL_REG := 0x00010007, SYSTICK_RELOAD_REG := 159999,
    SYSTICK_CURRENT_REG := 1234, g_SysTickCallBackPtr := some 1 }

/-- The all-zero register file with IRQ 0 enabled. -/
def RegFile.irq0Enabled : RegFile :=
  { RegFile.zero with NVIC_EN0_REG := 1 }

/-- The 3-bit field of the word `reg` that starts at bit `off`. -/
def field3 (reg off : Nat) : Nat := (reg >>> off) % 8

/-! ## `NVIC.c` -/

/-- Source function `NVIC_EnableIRQ` : `if (IRQ_Num < 32) NVIC_EN0_REG |= (1 << IRQ_Num);`. -/
def NVIC_EnableIRQ (IRQ_Num : Nat) (s : RegFile) : RegFile :=
  if IRQ_Num < 32 then
    { s with NVIC_EN0_REG := toU32 (s.NVIC_EN0_REG ||| shl32 1 IRQ_Num) }
  else s

/-- Source function `NVIC_DisableIRQ` : `if (IRQ_Num < 32) NVIC_EN0_REG &= ~(1 << IRQ_Num);`. -/
def NVIC_DisableIRQ (IRQ_Num : Nat) (s : RegFile) : RegFile :=
  if IRQ_Num < 32 then
    { s with NVIC_EN0_REG := toU32 (s.NVIC_EN0_REG &&& not32 (shl32 1 IRQ_Num)) }
  else s

/-- Source function `NVIC_SetPriorityIRQ` : the register `&NVIC_PRI0_REG + IRQ_Num / 4` is rewritten as
`(*reg & ~(0x07 << pos)) | (IRQ_Priority << pos)` with the `uint8_t`
`pos = (IRQ_Num % 4) * 8 + 5`. -/
def NVIC_SetPriorityIRQ (IRQ_Num IRQ_Priority : Nat) (s : RegFile) : RegFile :=
  let idx := IRQ_Num / 4
  let priority_field_pos := ((IRQ_Num % 4) * 8 + 5) % 256
  { s with NVIC_PRI := fun k =>
      if k = idx then
        toU32 ((s.NVIC_PRI idx &&& not32 (shl32 0x07 priority_field_pos))
                ||| shl32 IRQ_Priority priority_field_pos)
      else s.NVIC_PRI k }

/-- Source function `NVIC_SetPriorityException` : the `switch` over the exception type; each case
rewrites one system-priority register as `(reg & ~MASK) | (priority << POS)`. -/
def NVIC_SetPriorityException (exception_type priority : Nat) (s : RegFile) : RegFile :=
  if exception_type = EXCEPTION_MEM_FAULT_TYPE then
    { s with NVIC_SYSTEM_PRI1_REG :=
        toU32 ((s.NVIC_SYSTEM_PRI1_REG &&& not32 MEM_FAULT_PRIORITY_MASK)
                ||| shl32 priority MEM_FAULT_PRIORITY_BITS_POS) }
  else if exception_type = EXCEPTION_BUS_FAULT_TYPE then
    { s with NVIC_SYSTEM_PRI1_REG :=
        toU32 ((s.NVIC_SYSTEM_PRI1_REG &&& not32 BUS_FAULT_PRIORITY_MASK)
                ||| shl32 priority BUS_FAULT_PRIORITY_BITS_POS) }
  else if exception_type = EXCEPTION_USAGE_FAULT_TYPE then
    { s with NVIC_SYSTEM_PRI1_REG :=
        toU32 ((s.NVIC_SYSTEM_PRI1_REG &&& not32 USAGE_FAULT_PRIORITY_MASK)
                ||| shl32 priority USAGE_FAULT_PRIORITY_BITS_POS) }
  else if exception_type = EXCEPTION_SVC_TYPE then
    { s with NVIC_SYSTEM_PRI2_REG :=
        toU32 ((s.NVIC_SYSTEM_PRI2_REG &&& not32 SVC_PRIORITY_MASK)
                ||| shl32 priority SVC_PRIORITY_BITS_POS) }
  else if exception_type = EXCEPTION_DEBUG_MONITOR_TYPE then
    { s with NVIC_SYSTEM_PRI3_REG :=
        toU32 ((s.NVIC_SYSTEM_PRI3_REG &&& not32 DEBUG_MONITOR_PRIORITY_MASK)
                ||| shl32 priority DEBUG_MONITOR_PRIORITY_BITS_POS) }
  else if exception_type = EXCEPTION_PEND_SV_TYPE then
    { s with NVIC_SYSTEM_PRI3_REG :=
        toU32 ((s.NVIC_SYSTEM_PRI3_REG &&& not32 PENDSV_PRIORITY_MASK)
                ||| shl32 priority PENDSV_PRIORITY_BITS_POS) }
  else if exception_type = EXCEPTION_SYSTICK_TYPE then
    { s with NVIC_SYSTEM_PRI3_REG :=
        toU32 ((s.NVIC_SYSTEM_PRI3_REG &&& not32 SYSTICK_PRIORITY_MASK)
                ||| shl32 priority SYSTICK_PRIORITY_BITS_POS) }
  else s

/-- Source function `NVIC_EnableException` : `NVIC_SYSTEM_SYSHNDCTRL |= MASK` for the three fault
kinds, nothing in the `default` case. -/
def NVIC_EnableException (exception_type : Nat) (s : RegFile) : RegFile :=
  if exception_type = EXCEPTION_MEM_FAULT_TYPE then
    { s with NVIC_SYSTEM_SYSHNDCTRL := toU32 (s.NVIC_SYSTEM_SYSHNDCTRL ||| MEM_FAULT_ENABLE_MASK) }
  else if exception_type = EXCEPTION_BUS_FAULT_TYPE then
    { s with NVIC_SYSTEM_SYSHNDCTRL := toU32 (s.NVIC_SYSTEM_SYSHNDCTRL ||| BUS_FAULT_ENABLE_MASK) }
  else if exception_type = EXCEPTION_USAGE_FAULT_TYPE then
    { s with NVIC_SYSTEM_SYSHNDCTRL := toU32 (s.NVIC_SYSTEM_SYSHNDCTRL ||| USAGE_FAULT_ENABLE_MASK) }
  else s

/-- Source function `NVIC_DisableException` : `NVIC_SYSTEM_SYSHNDCTRL &= ~MASK` for the three fault
kinds, nothing in the `default` case. -/
def NVIC_DisableException (exception_type : Nat) (s : RegFile) : RegFile :=
  if exception_type = EXCEPTION_MEM_FAULT_TYPE then
    { s with NVIC_SYSTEM_SYSHNDCTRL :=
        toU32 (s.NVIC_SYSTEM_SYSHNDCTRL &&& not32 MEM_FAULT_ENABLE_MASK) }
  else if exception_type = EXCEPTION_BUS_FAULT_TYPE then
    { s with NVIC_SYSTEM_SYSHNDCTRL :=
        toU32 (s.NVIC_SYSTEM_SYSHNDCTRL &&& not32 BUS_FAULT_ENABLE_MASK) }
  else if exception_type = EXCEPTION_USAGE_FAULT_TYPE then
    { s with NVIC_SYSTEM_SYSHNDCTRL :=
        toU32 (s.NVIC_SYSTEM_SYSHNDCTRL &&& not32 USAGE_FAULT_ENABLE_MASK) }
  else s

/-! ## `SysTick.c` -/

/-- Source function `SysTick_Init` : control is cleared, the reload register receives the `int`
value `16000 * a_TimeInMilliSeconds - 1` converted to `uint32`, the current register is
cleared and control is set to `0x07`.  The argument is a `uint16`, so the `int`
product is at most `16000 * 65535` and is computed exactly. -/
def SysTick_Init (a_TimeInMilliSeconds : Nat) (s : RegFile) : RegFile :=
  let s1 := { s with SYSTICK_CTRL_REG := 0 }
  let reload_value := intToU32 (16000 * (a_TimeInMilliSeconds : Int) - 1)
  let s2 := { s1 with SYSTICK_RELOAD_REG := reload_value }
  let s3 := { s2 with SYSTICK_CURRENT_REG := 0 }
  { s3 with SYSTICK_CTRL_REG := 0x07 }

/-- Source function `SysTick_Start` : `SYSTICK_CTRL_REG |= 0x01;`. -/
def SysTick_Start (s : RegFile) : RegFile :=
  { s with SYSTICK_CTRL_REG := toU32 (s.SYSTICK_CTRL_REG ||| 0x01) }

/-- Source function `SysTick_Stop` : `SYSTICK_CTRL_REG &= ~(0x01);`. -/
def SysTick_Stop (s : RegFile) : RegFile :=
  { s with SYSTICK_CTRL_REG := toU32 (s.SYSTICK_CTRL_REG &&& not32 0x01) }

/-- Source function `SysTick_SetCallBack` : `g_SysTickCallBackPtr = Ptr2Func;`. -/
def SysTick_SetCallBack (Ptr2Func : Option Nat) (s : RegFile) : RegFile :=
  { s with g_SysTickCallBackPtr := Ptr2Func }

/-- Source function `SysTick_DeInit` : the control, reload and current registers are
written with zero, in that order. -/
def SysTick_DeInit (s : RegFile) : RegFile :=
  let s1 := { s with SYSTICK_CTRL_REG := 0 }
  let s2 := { s1 with SYSTICK_RELOAD_REG := 0 }
  { s2 with SYSTICK_CURRENT_REG := 0 }

/-- The register file together with the log of the callbacks invoked so far, oldest
first. -/
structure Machine where
  regs : RegFile
  invoked : List Nat

/-- A driver function whose body contains no call, run on a machine: only the register
file changes. -/
def Machine.exec (op : RegFile → RegFile) (m : Machine) : Machine :=
  { m with regs := op m.regs }

/-- Source function `SysTick_Handler` :
`if (g_SysTickCallBackPtr != NULL_PTR) (*g_SysTickCallBackPtr)();`.
The application function with identifier `f` is code outside the driver; `body f` is
what a call of it does to the register file, and the call is appended to the log. -/
def SysTick_Handler (body : Nat → RegFile → RegFile) (m : Machine) : Machine :=
  match m.regs.g_SysTickCallBackPtr with
  | none => m
  | some f => { regs := body f m.regs, invoked := m.invoked ++ [f] }

/-- The machine after a sequence of `SysTick_SetCallBack` calls, one per argument of the
list, in order. -/
def registerAll (args : List (Option Nat)) (m : Machine) : Machine :=
  args.foldl (fun t a => t.exec (SysTick_SetCallBack a)) m

/-- The three SysTick registers. -/
inductive SysTickReg where
  | CTRL
  | RELOAD
  | CURRENT
  deriving DecidableEq

/-- One store to a SysTick register. -/
def RegFile.store (s : RegFile) (r : SysTickReg) (v : Nat) : RegFile :=
  match r with
  | SysTickReg.CTRL => { s with SYSTICK_CTRL_REG := v }
  | SysTickReg.RELOAD => { s with SYSTICK_RELOAD_REG := v }
  | SysTickReg.CURRENT => { s with SYSTICK_CURRENT_REG := v }

/-- The stores of `SysTick_StartBusyWait` that precede its loop, in program order.  The
reload value `(16000 * delay_ms) - 1` is computed on `uint32_t`: the product and the
subtraction are both taken modulo `2 ^ 32`. -/
def SysTick_StartBusyWait_stores (delay_ms : Nat) : List (SysTickReg × Nat) :=
  [(SysTickReg.CTRL, 0),
   (SysTickReg.RELOAD, intToU32 ((toU32 (16000 * delay_ms) : Int) - 1)),
   (SysTickReg.CURRENT, 0),
   (SysTickReg.CTRL, 0x05)]

/-- The machine of `SysTick_StartBusyWait` when its loop begins: the stores have been
made, in order. -/
def SysTick_StartBusyWait_setup (delay_ms : Nat) (m : Machine) : Machine :=
  m.exec (fun s => (SysTick_StartBusyWait_stores delay_ms).foldl (fun t w => t.store w.1 w.2) s)

/-- The loop `while ((SYSTICK_CTRL_REG & 0x10000) == 0);` of `SysTick_StartBusyWait`.
The control register is volatile and set by the hardware: `polls k` is the value that
read number `k` of the loop returns.  The result is the number of the read that ends the
loop, `none` when the fuel runs out before. -/
def busyWaitLoop (polls : Nat → Nat) : Nat → Nat → Option Nat
  | 0, _ => none
  | fuel + 1, k =>
    if polls k &&& 0x10000 = 0 then busyWaitLoop polls fuel (k + 1) else some k

/-- Source function `SysTick_StartBusyWait` : the four stores, then the loop.  It returns
the machine as the stores left it (afterwards the control register belongs to the
hardware) and the number of the read that ended the loop. -/
def SysTick_StartBusyWait (polls : Nat → Nat) (fuel : Nat) (delay_ms : Nat) (m : Machine) :
    Option (Machine × Nat) :=
  match busyWaitLoop polls fuel 0 with
  | none => none
  | some n => some (SysTick_StartBusyWait_setup delay_ms m, n)

/-- A sequence of control-register reads whose count flag is clear in reads 0 to 2 and
set from read 3 on. -/
def samplePolls (k : Nat) : Nat :=
  if k < 3 then 0x00000005 else 0x00010005

/-- The sample register file with an empty invocation log. -/
def Machine.sample : Machine :=
  { regs := RegFile.sample, invoked := [] }

/-! ## Observations used by the specification -/

/-- The priority sub-field of a configurable exception kind, read with the register and
bit position that `NVIC.h` gives to that kind: mem-fault, bus-fault and usage-fault at
bits 5, 13 and 21 of system-priority register 1, supervisor-call at bit 29 of register 2,
debug-monitor, pend-service-call and system-tick at bits 5, 21 and 29 of register 3. -/
def exceptionPriorityField (kind : Nat) (s : RegFile) : Nat :=
  if kind = EXCEPTION_MEM_FAULT_TYPE then
    field3 s.NVIC_SYSTEM_PRI1_REG MEM_FAULT_PRIORITY_BITS_POS
  else if kind = EXCEPTION_BUS_FAULT_TYPE then
    field3 s.NVIC_SYSTEM_PRI1_REG BUS_FAULT_PRIORITY_BITS_POS
  else if kind = EXCEPTION_USAGE_FAULT_TYPE then
    field3 s.NVIC_SYSTEM_PRI1_REG USAGE_FAULT_PRIORITY_BITS_POS
  else if kind = EXCEPTION_SVC_TYPE then
    field3 s.NVIC_SYSTEM_PRI2_REG SVC_PRIORITY_BITS_POS
  else if kind = EXCEPTION_DEBUG_MONITOR_TYPE then
    field3 s.NVIC_SYSTEM_PRI3_REG DEBUG_MONITOR_PRIORITY_BITS_POS
  else if kind = EXCEPTION_PEND_SV_TYPE then
    field3 s.NVIC_SYSTEM_PRI3_REG PENDSV_PRIORITY_BITS_POS
  else if kind = EXCEPTION_SYSTICK_TYPE then
    field3 s.NVIC_SYSTEM_PRI3_REG SYSTICK_PRIORITY_BITS_POS
  else 0

/-- The bit of the system-handler-control register that belongs to a fault kind:
16 for mem-fault, 17 for bus-fault, 18 for usage-fault. -/
def faultEnableBit (kind : Nat) : Nat :=
  if kind = EXCEPTION_MEM_FAULT_TYPE then 16
  else if kind = EXCEPTION_BUS_FAULT_TYPE then 17
  else 18

/-! ## Bit-level lemmas on machine words -/

theorem toU32_lt (n : Nat) : toU32 n < 2 ^ 32 :=
  Nat.mod_lt _ (by decide)

theorem toU32_of_lt {n : Nat} (h : n < 2 ^ 32) : toU32 n = n :=
  Nat.mod_eq_of_lt h

theorem testBit_toU32 (n j : Nat) :
    (toU32 n).testBit j = (decide (j < 32) && n.testBit j) := by
  unfold toU32
  exact Nat.testBit_mod_two_pow n 32 j

theorem testBit_shl32 (a n j : Nat) :
    (shl32 a n).testBit j = (decide (j < 32) && (decide (n ≤ j) && a.testBit (j - n))) := by
  unfold shl32
  rw [Nat.testBit_mod_two_pow, Nat.testBit_shiftLeft]

theorem testBit_not32 (a j : Nat) :
    (not32 a).testBit j = (decide (j < 32) && !a.testBit j) := by
  unfold not32
  have h : (0xFFFFFFFF : Nat) = 2 ^ 32 - 1 := by decide
  rw [h, Nat.testBit_xor, Nat.testBit_two_pow_sub_one, Nat.testBit_mod_two_pow]
  cases decide (j < 32) <;> cases a.testBit j <;> rfl

theorem testBit_of_lt_two_pow {x n j : Nat} (hx : x < 2 ^ n) (hj : n ≤ j) :
    x.testBit j = false :=
  Nat.testBit_lt_two_pow (lt_of_lt_of_le hx (Nat.pow_le_pow_right (by decide) hj))

theorem testBit_field3 (reg off i : Nat) :
    (field3 reg off).testBit i = (decide (i < 3) && reg.testBit (off + i)) := by
  unfold field3
  have h : (8 : Nat) = 2 ^ 3 := by decide
  rw [h, Nat.testBit_mod_two_pow, Nat.testBit_shiftRight]

theorem testBit_one (k : Nat) : Nat.testBit 1 k = decide (k = 0) := by
  by_cases h : k = 0
  · subst h; rfl
  · have h1 : ¬ Nat.testBit 1 k = true := fun e =>
      h (Nat.testBit_one_eq_true_iff_self_eq_zero.mp e)
    simp [h, h1]

theorem testBit_shl32_one (n j : Nat) :
    (shl32 1 n).testBit j = (decide (j < 32) && decide (j = n)) := by
  rw [testBit_shl32, testBit_one]
  by_cases h1 : j < 32 <;> by_cases h2 : n ≤ j <;> simp [h1, h2] <;> omega

theorem testBit_u32 {x : Nat} (hx : x < 2 ^ 32) (j : Nat) :
    (decide (j < 32) && x.testBit j) = x.testBit j := by
  by_cases hj : j < 32
  · simp [hj]
  · simp [hj, testBit_of_lt_two_pow hx (Nat.le_of_not_lt hj)]

/-- Bits of `x | (1 << n)` stored in a 32-bit register. -/
theorem testBit_setBit {x : Nat} (hx : x < 2 ^ 32) (n j : Nat) :
    (toU32 (x ||| shl32 1 n)).testBit j
      = (x.testBit j || (decide (j < 32) && decide (j = n))) := by
  rw [testBit_toU32, Nat.testBit_or, testBit_shl32_one, ← testBit_u32 hx j]
  cases decide (j < 32) <;> cases x.testBit j <;> cases decide (j = n) <;> rfl

/-- Bits of `x & ~(1 << n)` stored in a 32-bit register. -/
theorem testBit_clearBit {x : Nat} (hx : x < 2 ^ 32) (n j : Nat) :
    (toU32 (x &&& not32 (shl32 1 n))).testBit j
      = (x.testBit j && !(decide (j < 32) && decide (j = n))) := by
  rw [testBit_toU32, Nat.testBit_and, testBit_not32, testBit_shl32_one, ← testBit_u32 hx j]
  cases decide (j < 32) <;> cases x.testBit j <;> cases decide (j = n) <;> rfl

/-! ## IRQ enable register -/

/-- C4: for `irq` in [0,31] and a 32-bit enable register, `NVIC_EnableIRQ` makes bit `irq`
one and `NVIC_DisableIRQ` makes it zero; every other bit keeps its value. -/
theorem NVIC_EnableIRQ_DisableIRQ_bit (irq : Nat) (s : RegFile) (hirq : irq < 32)
    (hwf : s.WF) :
    ((NVIC_EnableIRQ irq s).NVIC_EN0_REG.testBit irq = true ∧
      ∀ j, j ≠ irq →
        (NVIC_EnableIRQ irq s).NVIC_EN0_REG.testBit j = s.NVIC_EN0_REG.testBit j) ∧
    ((NVIC_DisableIRQ irq s).NVIC_EN0_REG.testBit irq = false ∧
      ∀ j, j ≠ irq →
        (NVIC_DisableIRQ irq s).NVIC_EN0_REG.testBit j = s.NVIC_EN0_REG.testBit j) := by
  have hx := hwf.1
  refine ⟨⟨?_, ?_⟩, ?_, ?_⟩
  · simp [NVIC_EnableIRQ, hirq, testBit_setBit hx]
  · intro j hj
    simp [NVIC_EnableIRQ, hirq, testBit_setBit hx, hj]
  · simp [NVIC_DisableIRQ, hirq, testBit_clearBit hx]
  · intro j hj
    simp [NVIC_DisableIRQ, hirq, testBit_clearBit hx, hj]

theorem RegFile.zero_WF : RegFile.zero.WF :=
  ⟨by decide, fun _ => (by decide : (0 : Nat) < 2 ^ 32), by decide, by decide, by decide, by decide, by decide,
    by decide, by decide⟩

theorem RegFile.sample_WF : RegFile.sample.WF :=
  ⟨by decide, fun _ => (by decide : (0xA5A5A5A5 : Nat) < 2 ^ 32), by decide, by decide, by decide, by decide, by decide,
    by decide, by decide⟩

theorem NVIC_EnableIRQ_DisableIRQ_bit_witness :
    ((NVIC_EnableIRQ 31 RegFile.zero).NVIC_EN0_REG.testBit 31 = true ∧
      ∀ j, j ≠ 31 →
        (NVIC_EnableIRQ 31 RegFile.zero).NVIC_EN0_REG.testBit j
          = RegFile.zero.NVIC_EN0_REG.testBit j) ∧
    ((NVIC_DisableIRQ 31 RegFile.zero).NVIC_EN0_REG.testBit 31 = false ∧
      ∀ j, j ≠ 31 →
        (NVIC_DisableIRQ 31 RegFile.zero).NVIC_EN0_REG.testBit j
          = RegFile.zero.NVIC_EN0_REG.testBit j) :=
  NVIC_EnableIRQ_DisableIRQ_bit 31 RegFile.zero (by decide) RegFile.zero_WF

/-- Clearing bit `n` after setting it is the same as clearing it. -/
theorem word_clear_set (x n : Nat) :
    toU32 (toU32 (x ||| shl32 1 n) &&& not32 (shl32 1 n))
      = toU32 (x &&& not32 (shl32 1 n)) := by
  apply Nat.eq_of_testBit_eq
  intro j
  simp only [testBit_toU32, Nat.testBit_and, Nat.testBit_or, testBit_not32, testBit_shl32_one]
  cases decide (j < 32) <;> cases x.testBit j <;> cases decide (j = n) <;> rfl

theorem RegFile.set_EN0_eq_self (s : RegFile) (v : Nat) :
    { s with NVIC_EN0_REG := v } = s ↔ v = s.NVIC_EN0_REG := by
  cases s
  simp

/-- C5 as stated fails: with bit 0 of the enable register already set (value 1),
enabling and then disabling IRQ 0 leaves 0, not the initial value. -/
theorem disable_after_enable_not_identity :
    RegFile.irq0Enabled.NVIC_EN0_REG = 1 ∧
    (NVIC_DisableIRQ 0 (NVIC_EnableIRQ 0 RegFile.irq0Enabled)).NVIC_EN0_REG = 0 ∧
    (NVIC_DisableIRQ 0 (NVIC_EnableIRQ 0 RegFile.irq0Enabled)).NVIC_EN0_REG
      ≠ RegFile.irq0Enabled.NVIC_EN0_REG :=
  ⟨by decide, by decide, by decide⟩

/-- C5 (amended): for `irq` in [0,31], `NVIC_DisableIRQ` after `NVIC_EnableIRQ` gives the
register file that `NVIC_DisableIRQ` alone gives (bit `irq` cleared); it is the initial
register file exactly when bit `irq` of the enable register was clear. -/
theorem NVIC_DisableIRQ_after_EnableIRQ (irq : Nat) (s : RegFile) (hirq : irq < 32)
    (hwf : s.WF) :
    NVIC_DisableIRQ irq (NVIC_EnableIRQ irq s) = NVIC_DisableIRQ irq s ∧
    (NVIC_DisableIRQ irq (NVIC_EnableIRQ irq s) = s ↔
      s.NVIC_EN0_REG.testBit irq = false) := by
  have hx := hwf.1
  have h1 : NVIC_DisableIRQ irq (NVIC_EnableIRQ irq s) = NVIC_DisableIRQ irq s := by
    simp only [NVIC_DisableIRQ, NVIC_EnableIRQ, if_pos hirq, word_clear_set]
  refine ⟨h1, ?_⟩
  rw [h1]
  simp only [NVIC_DisableIRQ, if_pos hirq, RegFile.set_EN0_eq_self]
  constructor
  · intro h
    rw [← h, testBit_clearBit hx]
    simp [hirq]
  · intro h
    apply Nat.eq_of_testBit_eq
    intro j
    rw [testBit_clearBit hx]
    by_cases hj : j = irq
    · subst hj; simp [h]
    · simp [hj]

theorem NVIC_DisableIRQ_after_EnableIRQ_witness :
    NVIC_DisableIRQ 31 (NVIC_EnableIRQ 31 RegFile.sample) = NVIC_DisableIRQ 31 RegFile.sample ∧
    (NVIC_DisableIRQ 31 (NVIC_EnableIRQ 31 RegFile.sample) = RegFile.sample ↔
      RegFile.sample.NVIC_EN0_REG.testBit 31 = false) :=
  NVIC_DisableIRQ_after_EnableIRQ 31 RegFile.sample (by decide) RegFile.sample_WF

/-- C6: for `32 ≤ irq ≤ 255`, `NVIC_EnableIRQ` and `NVIC_DisableIRQ` return the register
file they were given; both are total functions, so nothing is signalled. -/
theorem NVIC_EnableIRQ_DisableIRQ_out_of_range (irq : Nat) (s : RegFile)
    (hlo : 32 ≤ irq) (_hhi : irq ≤ 255) :
    NVIC_EnableIRQ irq s = s ∧ NVIC_DisableIRQ irq s = s := by
  have h : ¬ irq < 32 := Nat.not_lt.mpr hlo
  simp [NVIC_EnableIRQ, NVIC_DisableIRQ, h]

theorem NVIC_EnableIRQ_DisableIRQ_out_of_range_witness :
    NVIC_EnableIRQ 32 RegFile.sample = RegFile.sample ∧
    NVIC_DisableIRQ 32 RegFile.sample = RegFile.sample :=
  NVIC_EnableIRQ_DisableIRQ_out_of_range 32 RegFile.sample (by decide) (by decide)

/-! ## IRQ priority registers -/

theorem testBit_seven (k : Nat) : Nat.testBit 7 k = decide (k < 3) := by
  have h : (7 : Nat) = 2 ^ 3 - 1 := by decide
  rw [h, Nat.testBit_two_pow_sub_one]

theorem testBit_and_seven (p k : Nat) :
    (p &&& 7).testBit k = (decide (k < 3) && p.testBit k) := by
  rw [Nat.testBit_and, testBit_seven, Bool.and_comm]

theorem testBit_high_part (p k : Nat) :
    (p / 8 * 8).testBit k = (decide (3 ≤ k) && p.testBit k) := by
  have h : p / 8 * 8 = (p >>> 3) <<< 3 := by
    rw [Nat.shiftLeft_eq, Nat.shiftRight_eq_div_pow]
  rw [h, Nat.testBit_shiftLeft, Nat.testBit_shiftRight]
  by_cases hk : 3 ≤ k
  · have e : 3 + (k - 3) = k := by omega
    simp [hk, e]
  · simp [hk]

theorem fieldPos_u8 (n : Nat) : ((n % 4) * 8 + 5) % 256 = (n % 4) * 8 + 5 := by
  omega

/-- Bits of the word `(x & ~(0x07 << pos)) | (p << pos)` stored in a 32-bit register. -/
theorem testBit_priorityWord (x pos p j : Nat) :
    (toU32 ((x &&& not32 (shl32 0x07 pos)) ||| shl32 p pos)).testBit j
      = (decide (j < 32) &&
          ((x.testBit j && !(decide (pos ≤ j) && decide (j - pos < 3)))
            || (decide (pos ≤ j) && p.testBit (j - pos)))) := by
  simp only [testBit_toU32, Nat.testBit_or, Nat.testBit_and, testBit_not32, testBit_shl32,
    testBit_seven]
  cases decide (j < 32) <;> cases x.testBit j <;> cases decide (pos ≤ j) <;>
    cases decide (j - pos < 3) <;> cases p.testBit (j - pos) <;> rfl

theorem NVIC_SetPriorityIRQ_PRI (irq p : Nat) (s : RegFile) :
    (NVIC_SetPriorityIRQ irq p s).NVIC_PRI (irq / 4)
      = toU32 ((s.NVIC_PRI (irq / 4) &&& not32 (shl32 0x07 ((irq % 4) * 8 + 5)))
                ||| shl32 p ((irq % 4) * 8 + 5)) := by
  simp [NVIC_SetPriorityIRQ, fieldPos_u8]

theorem NVIC_SetPriorityIRQ_PRI_other (irq p : Nat) (s : RegFile) (k : Nat)
    (hk : k ≠ irq / 4) :
    (NVIC_SetPriorityIRQ irq p s).NVIC_PRI k = s.NVIC_PRI k := by
  simp [NVIC_SetPriorityIRQ, hk]

/-- C1: for `irq` in [0,31] and `priority` in [0,7], after `NVIC_SetPriorityIRQ` the 3-bit
field at offset `(irq % 4) * 8 + 5` of priority register `irq / 4` is `priority`, every
bit of that register outside the field is unchanged, and so is every other register. -/
theorem NVIC_SetPriorityIRQ_roundtrip (irq priority : Nat) (s : RegFile)
    (_hirq : irq < 32) (hp : priority ≤ 7) (hwf : s.WF) :
    field3 ((NVIC_SetPriorityIRQ irq priority s).NVIC_PRI (irq / 4)) ((irq % 4) * 8 + 5)
      = priority ∧
    (∀ j, ¬ ((irq % 4) * 8 + 5 ≤ j ∧ j < (irq % 4) * 8 + 8) →
      ((NVIC_SetPriorityIRQ irq priority s).NVIC_PRI (irq / 4)).testBit j
        = (s.NVIC_PRI (irq / 4)).testBit j) ∧
    (∀ k, k ≠ irq / 4 → (NVIC_SetPriorityIRQ irq priority s).NVIC_PRI k = s.NVIC_PRI k) ∧
    NVIC_SetPriorityIRQ irq priority s
      = { s with NVIC_PRI := (NVIC_SetPriorityIRQ irq priority s).NVIC_PRI } := by
  have hx : s.NVIC_PRI (irq / 4) < 2 ^ 32 := hwf.2.1 _
  have hp8 : priority < 2 ^ 3 := by
    have : (2 : Nat) ^ 3 = 8 := by decide
    omega
  have hpos : irq % 4 < 4 := Nat.mod_lt _ (by decide)
  refine ⟨?_, ?_, ?_, rfl⟩
  · apply Nat.eq_of_testBit_eq
    intro i
    rw [testBit_field3, NVIC_SetPriorityIRQ_PRI, testBit_priorityWord]
    by_cases hi : i < 3
    · have h1 : (irq % 4) * 8 + 5 + i < 32 := by omega
      have h2 : (irq % 4) * 8 + 5 ≤ (irq % 4) * 8 + 5 + i := by omega
      have h3 : (irq % 4) * 8 + 5 + i - ((irq % 4) * 8 + 5) = i := by omega
      simp [hi, h1, h3]
    · simp [hi, testBit_of_lt_two_pow hp8 (Nat.le_of_not_lt hi)]
  · intro j hj
    rw [NVIC_SetPriorityIRQ_PRI, testBit_priorityWord]
    by_cases h1 : (irq % 4) * 8 + 5 ≤ j
    · have h2 : ¬ j - ((irq % 4) * 8 + 5) < 3 := by omega
      have h3 : priority.testBit (j - ((irq % 4) * 8 + 5)) = false :=
        testBit_of_lt_two_pow hp8 (by omega)
      simp [h1, h2, h3, testBit_u32 hx]
    · simp [h1, testBit_u32 hx]
  · intro k hk
    exact NVIC_SetPriorityIRQ_PRI_other irq priority s k hk

theorem NVIC_SetPriorityIRQ_roundtrip_witness :
    field3 ((NVIC_SetPriorityIRQ 30 5 RegFile.sample).NVIC_PRI (30 / 4)) ((30 % 4) * 8 + 5)
      = 5 ∧
    (∀ j, ¬ ((30 % 4) * 8 + 5 ≤ j ∧ j < (30 % 4) * 8 + 8) →
      ((NVIC_SetPriorityIRQ 30 5 RegFile.sample).NVIC_PRI (30 / 4)).testBit j
        = (RegFile.sample.NVIC_PRI (30 / 4)).testBit j) ∧
    (∀ k, k ≠ 30 / 4 →
      (NVIC_SetPriorityIRQ 30 5 RegFile.sample).NVIC_PRI k = RegFile.sample.NVIC_PRI k) ∧
    NVIC_SetPriorityIRQ 30 5 RegFile.sample
      = { RegFile.sample with NVIC_PRI := (NVIC_SetPriorityIRQ 30 5 RegFile.sample).NVIC_PRI } :=
  NVIC_SetPriorityIRQ_roundtrip 30 5 RegFile.sample (by decide) (by decide) RegFile.sample_WF

/-- C3 as stated fails: on the all-zero register file `NVIC_SetPriorityIRQ(0, 8)` writes
`0x100` (bit 8, outside the 3-bit field at bits 5-7) into priority register 0, whereas
`NVIC_SetPriorityIRQ(0, 8 & 7)` writes 0. -/
theorem NVIC_SetPriorityIRQ_high_bits_leak :
    (NVIC_SetPriorityIRQ 0 8 RegFile.zero).NVIC_PRI 0 = 0x100 ∧
    (NVIC_SetPriorityIRQ 0 (8 &&& 7) RegFile.zero).NVIC_PRI 0 = 0 ∧
    NVIC_SetPriorityIRQ 0 8 RegFile.zero ≠ NVIC_SetPriorityIRQ 0 (8 &&& 7) RegFile.zero := by
  refine ⟨by decide, by decide, fun h => ?_⟩
  have h1 : (NVIC_SetPriorityIRQ 0 8 RegFile.zero).NVIC_PRI 0
      = (NVIC_SetPriorityIRQ 0 (8 &&& 7) RegFile.zero).NVIC_PRI 0 := by rw [h]
  revert h1
  decide

/-- When the priority is at most 7, or the field is the top one (offset 29), the shifted
priority equals the shifted low three bits. -/
theorem shl32_and_seven (p pos : Nat) (h : p ≤ 7 ∨ pos = 29) :
    shl32 p pos = shl32 (p &&& 7) pos := by
  apply Nat.eq_of_testBit_eq
  intro j
  rw [testBit_shl32, testBit_shl32, testBit_and_seven]
  rcases h with h | h
  · have hp8 : p < 2 ^ 3 := by
      have : (2 : Nat) ^ 3 = 8 := by decide
      omega
    by_cases hk : j - pos < 3
    · simp [hk]
    · simp [hk, testBit_of_lt_two_pow hp8 (Nat.le_of_not_lt hk)]
  · subst h
    by_cases h1 : j < 32
    · by_cases h2 : 29 ≤ j
      · have h3 : j - 29 < 3 := by omega
        simp [h3]
      · simp [h2]
    · simp [h1]

/-- C3 (amended): for `irq` in [0,31] and an 8-bit priority `p`, the register written by
`NVIC_SetPriorityIRQ(irq, p)` is the one written by `NVIC_SetPriorityIRQ(irq, p & 7)`
OR-ed with the bits of `p` above bit 2 shifted to the field offset (modulo `2 ^ 32`); the
two calls give the same register file when `p ≤ 7` or `irq % 4 = 3`. -/
theorem NVIC_SetPriorityIRQ_low_bits (irq p : Nat) (s : RegFile)
    (_hirq : irq < 32) (_hp : p ≤ 255) :
    (NVIC_SetPriorityIRQ irq p s).NVIC_PRI (irq / 4)
      = (NVIC_SetPriorityIRQ irq (p &&& 7) s).NVIC_PRI (irq / 4)
          ||| shl32 (p / 8 * 8) ((irq % 4) * 8 + 5) ∧
    ((p ≤ 7 ∨ irq % 4 = 3) →
      NVIC_SetPriorityIRQ irq p s = NVIC_SetPriorityIRQ irq (p &&& 7) s) := by
  constructor
  · apply Nat.eq_of_testBit_eq
    intro j
    rw [NVIC_SetPriorityIRQ_PRI, NVIC_SetPriorityIRQ_PRI, Nat.testBit_or,
      testBit_priorityWord, testBit_priorityWord, testBit_shl32, testBit_and_seven,
      testBit_high_part]
    by_cases hk : j - ((irq % 4) * 8 + 5) < 3
    · simp [hk]
    · have hk3 : 3 ≤ j - ((irq % 4) * 8 + 5) := Nat.le_of_not_lt hk
      simp only [hk, hk3, decide_True, decide_False, Bool.and_false, Bool.not_false,
        Bool.and_true, Bool.false_and, Bool.true_and, Bool.or_false]
      cases decide (j < 32) <;> cases (s.NVIC_PRI (irq / 4)).testBit j <;>
        cases decide (irq % 4 * 8 + 5 ≤ j) <;> cases p.testBit (j - (irq % 4 * 8 + 5)) <;> rfl
  · intro h
    have h2 : p ≤ 7 ∨ (irq % 4) * 8 + 5 = 29 := by omega
    simp only [NVIC_SetPriorityIRQ, fieldPos_u8, shl32_and_seven p _ h2]

theorem NVIC_SetPriorityIRQ_low_bits_witness :
    (NVIC_SetPriorityIRQ 31 255 RegFile.sample).NVIC_PRI (31 / 4)
      = (NVIC_SetPriorityIRQ 31 (255 &&& 7) RegFile.sample).NVIC_PRI (31 / 4)
          ||| shl32 (255 / 8 * 8) ((31 % 4) * 8 + 5) ∧
    NVIC_SetPriorityIRQ 31 255 RegFile.sample
      = NVIC_SetPriorityIRQ 31 (255 &&& 7) RegFile.sample :=
  ⟨(NVIC_SetPriorityIRQ_low_bits 31 255 RegFile.sample (by decide) (by decide)).1,
    (NVIC_SetPriorityIRQ_low_bits 31 255 RegFile.sample (by decide) (by decide)).2
      (Or.inr (by decide))⟩

/-! ## System priority registers -/

theorem field3_priorityWord_same (x p pos : Nat) (h : pos + 3 ≤ 32) :
    field3 (toU32 ((x &&& not32 (shl32 0x07 pos)) ||| shl32 p pos)) pos = p &&& 7 := by
  apply Nat.eq_of_testBit_eq
  intro i
  rw [testBit_field3, testBit_priorityWord, testBit_and_seven]
  by_cases hi : i < 3
  · have h1 : pos + i < 32 := by omega
    have h3 : pos + i - pos = i := by omega
    simp [hi, h1, h3]
  · simp [hi]

theorem field3_priorityWord_other (x p pos off : Nat) (hp : p ≤ 255) (h32 : off + 3 ≤ 32)
    (h : off + 3 ≤ pos ∨ pos + 8 ≤ off) :
    field3 (toU32 ((x &&& not32 (shl32 0x07 pos)) ||| shl32 p pos)) off = field3 x off := by
  have hp8 : p < 2 ^ 8 := by
    have : (2 : Nat) ^ 8 = 256 := by decide
    omega
  apply Nat.eq_of_testBit_eq
  intro i
  rw [testBit_field3, testBit_field3, testBit_priorityWord]
  by_cases hi : i < 3
  · have h1 : off + i < 32 := by omega
    rcases h with h | h
    · have h2 : ¬ pos ≤ off + i := by omega
      simp [hi, h1, h2]
    · have h2 : ¬ off + i - pos < 3 := by omega
      have h3 : p.testBit (off + i - pos) = false := testBit_of_lt_two_pow hp8 (by omega)
      simp [hi, h1, h2, h3]
  · simp [hi]

theorem NVIC_SetPriorityException_mem_fault (p : Nat) (s : RegFile) :
    NVIC_SetPriorityException 3 p s =
      { s with NVIC_SYSTEM_PRI1_REG :=
          toU32 ((s.NVIC_SYSTEM_PRI1_REG &&& not32 (shl32 0x07 5)) ||| shl32 p 5) } := rfl

theorem NVIC_SetPriorityException_bus_fault (p : Nat) (s : RegFile) :
    NVIC_SetPriorityException 4 p s =
      { s with NVIC_SYSTEM_PRI1_REG :=
          toU32 ((s.NVIC_SYSTEM_PRI1_REG &&& not32 (shl32 0x07 13)) ||| shl32 p 13) } := rfl

theorem NVIC_SetPriorityException_usage_fault (p : Nat) (s : RegFile) :
    NVIC_SetPriorityException 5 p s =
      { s with NVIC_SYSTEM_PRI1_REG :=
          toU32 ((s.NVIC_SYSTEM_PRI1_REG &&& not32 (shl32 0x07 21)) ||| shl32 p 21) } := rfl

theorem NVIC_SetPriorityException_svc (p : Nat) (s : RegFile) :
    NVIC_SetPriorityException 6 p s =
      { s with NVIC_SYSTEM_PRI2_REG :=
          toU32 ((s.NVIC_SYSTEM_PRI2_REG &&& not32 (shl32 0x07 29)) ||| shl32 p 29) } := rfl

theorem NVIC_SetPriorityException_debug_monitor (p : Nat) (s : RegFile) :
    NVIC_SetPriorityException 7 p s =
      { s with NVIC_SYSTEM_PRI3_REG :=
          toU32 ((s.NVIC_SYSTEM_PRI3_REG &&& not32 (shl32 0x07 5)) ||| shl32 p 5) } := rfl

theorem NVIC_SetPriorityException_pend_sv (p : Nat) (s : RegFile) :
    NVIC_SetPriorityException 8 p s =
      { s with NVIC_SYSTEM_PRI3_REG :=
          toU32 ((s.NVIC_SYSTEM_PRI3_REG &&& not32 (shl32 0x07 21)) ||| shl32 p 21) } := rfl

theorem NVIC_SetPriorityException_systick (p : Nat) (s : RegFile) :
    NVIC_SetPriorityException 9 p s =
      { s with NVIC_SYSTEM_PRI3_REG :=
          toU32 ((s.NVIC_SYSTEM_PRI3_REG &&& not32 (shl32 0x07 29)) ||| shl32 p 29) } := rfl

theorem exceptionPriorityField_mem_fault (s : RegFile) :
    exceptionPriorityField 3 s = field3 s.NVIC_SYSTEM_PRI1_REG 5 := rfl

theorem exceptionPriorityField_bus_fault (s : RegFile) :
    exceptionPriorityField 4 s = field3 s.NVIC_SYSTEM_PRI1_REG 13 := rfl

theorem exceptionPriorityField_usage_fault (s : RegFile) :
    exceptionPriorityField 5 s = field3 s.NVIC_SYSTEM_PRI1_REG 21 := rfl

theorem exceptionPriorityField_svc (s : RegFile) :
    exceptionPriorityField 6 s = field3 s.NVIC_SYSTEM_PRI2_REG 29 := rfl

theorem exceptionPriorityField_debug_monitor (s : RegFile) :
    exceptionPriorityField 7 s = field3 s.NVIC_SYSTEM_PRI3_REG 5 := rfl

theorem exceptionPriorityField_pend_sv (s : RegFile) :
    exceptionPriorityField 8 s = field3 s.NVIC_SYSTEM_PRI3_REG 21 := rfl

theorem exceptionPriorityField_systick (s : RegFile) :
    exceptionPriorityField 9 s = field3 s.NVIC_SYSTEM_PRI3_REG 29 := rfl

/-- C2: for each of the seven configurable exception kinds (enumerators 3 to 9) and every
8-bit priority `p`, after `NVIC_SetPriorityException(kind, p)` the sub-field of `kind`
reads `p & 0x7` and the sub-fields of the other six kinds read what they read before. -/
theorem NVIC_SetPriorityException_roundtrip (kind p : Nat) (s : RegFile)
    (hlo : EXCEPTION_MEM_FAULT_TYPE ≤ kind) (hhi : kind ≤ EXCEPTION_SYSTICK_TYPE)
    (hp : p ≤ 255) :
    exceptionPriorityField kind (NVIC_SetPriorityException kind p s) = p &&& 0x7 ∧
    ∀ other, EXCEPTION_MEM_FAULT_TYPE ≤ other → other ≤ EXCEPTION_SYSTICK_TYPE →
      other ≠ kind →
      exceptionPriorityField other (NVIC_SetPriorityException kind p s)
        = exceptionPriorityField other s := by
  simp only [EXCEPTION_MEM_FAULT_TYPE, EXCEPTION_SYSTICK_TYPE] at hlo hhi ⊢
  have hkind : kind = 3 ∨ kind = 4 ∨ kind = 5 ∨ kind = 6 ∨ kind = 7 ∨ kind = 8 ∨ kind = 9 := by
    omega
  refine ⟨?_, ?_⟩
  · rcases hkind with h | h | h | h | h | h | h <;> subst h <;>
      simp only [NVIC_SetPriorityException_mem_fault, NVIC_SetPriorityException_bus_fault,
        NVIC_SetPriorityException_usage_fault, NVIC_SetPriorityException_svc,
        NVIC_SetPriorityException_debug_monitor, NVIC_SetPriorityException_pend_sv,
        NVIC_SetPriorityException_systick, exceptionPriorityField_mem_fault,
        exceptionPriorityField_bus_fault, exceptionPriorityField_usage_fault,
        exceptionPriorityField_svc, exceptionPriorityField_debug_monitor,
        exceptionPriorityField_pend_sv, exceptionPriorityField_systick] <;>
      exact field3_priorityWord_same _ _ _ (by decide)
  · intro other ho1 ho2 hne
    have hother :
        other = 3 ∨ other = 4 ∨ other = 5 ∨ other = 6 ∨ other = 7 ∨ other = 8 ∨ other = 9 := by
      omega
    rcases hkind with h | h | h | h | h | h | h <;> subst h <;>
      rcases hother with g | g | g | g | g | g | g <;> subst g <;>
      simp only [NVIC_SetPriorityException_mem_fault, NVIC_SetPriorityException_bus_fault,
        NVIC_SetPriorityException_usage_fault, NVIC_SetPriorityException_svc,
        NVIC_SetPriorityException_debug_monitor, NVIC_SetPriorityException_pend_sv,
        NVIC_SetPriorityException_systick, exceptionPriorityField_mem_fault,
        exceptionPriorityField_bus_fault, exceptionPriorityField_usage_fault,
        exceptionPriorityField_svc, exceptionPriorityField_debug_monitor,
        exceptionPriorityField_pend_sv, exceptionPriorityField_systick] <;>
      first
        | exact absurd rfl hne
        | exact field3_priorityWord_other _ _ _ _ hp (by decide) (by decide)

theorem NVIC_SetPriorityException_roundtrip_witness :
    exceptionPriorityField 4 (NVIC_SetPriorityException 4 255 RegFile.sample) = 255 &&& 0x7 ∧
    ∀ other, EXCEPTION_MEM_FAULT_TYPE ≤ other → other ≤ EXCEPTION_SYSTICK_TYPE →
      other ≠ 4 →
      exceptionPriorityField other (NVIC_SetPriorityException 4 255 RegFile.sample)
        = exceptionPriorityField other RegFile.sample :=
  NVIC_SetPriorityException_roundtrip 4 255 RegFile.sample (by decide) (by decide) (by decide)

/-- C8: `NVIC_SetPriorityException` returns the register file it was given for the kinds
reset, NMI and hard-fault (enumerators 0 to 2) and for every 8-bit value that is not an
enumerator (10 to 255), whatever the priority. -/
theorem NVIC_SetPriorityException_not_settable (kind p : Nat) (s : RegFile)
    (hk : kind ≤ EXCEPTION_HARD_FAULT_TYPE ∨ (EXCEPTION_SYSTICK_TYPE < kind ∧ kind ≤ 255)) :
    NVIC_SetPriorityException kind p s = s := by
  simp only [EXCEPTION_HARD_FAULT_TYPE, EXCEPTION_SYSTICK_TYPE] at hk
  have h3 : kind ≠ 3 := by omega
  have h4 : kind ≠ 4 := by omega
  have h5 : kind ≠ 5 := by omega
  have h6 : kind ≠ 6 := by omega
  have h7 : kind ≠ 7 := by omega
  have h8 : kind ≠ 8 := by omega
  have h9 : kind ≠ 9 := by omega
  simp [NVIC_SetPriorityException, EXCEPTION_MEM_FAULT_TYPE, EXCEPTION_BUS_FAULT_TYPE,
    EXCEPTION_USAGE_FAULT_TYPE, EXCEPTION_SVC_TYPE, EXCEPTION_DEBUG_MONITOR_TYPE,
    EXCEPTION_PEND_SV_TYPE, EXCEPTION_SYSTICK_TYPE, h3, h4, h5, h6, h7, h8, h9]

theorem NVIC_SetPriorityException_not_settable_witness :
    NVIC_SetPriorityException 2 7 RegFile.sample = RegFile.sample :=
  NVIC_SetPriorityException_not_settable 2 7 RegFile.sample (Or.inl (by decide))

/-! ## System handler control register -/

theorem NVIC_EnableException_fault (kind : Nat) (s : RegFile)
    (hk : kind = 3 ∨ kind = 4 ∨ kind = 5) :
    NVIC_EnableException kind s =
      { s with NVIC_SYSTEM_SYSHNDCTRL :=
          toU32 (s.NVIC_SYSTEM_SYSHNDCTRL ||| shl32 1 (faultEnableBit kind)) } := by
  rcases hk with h | h | h <;> subst h <;> rfl

theorem NVIC_DisableException_fault (kind : Nat) (s : RegFile)
    (hk : kind = 3 ∨ kind = 4 ∨ kind = 5) :
    NVIC_DisableException kind s =
      { s with NVIC_SYSTEM_SYSHNDCTRL :=
          toU32 (s.NVIC_SYSTEM_SYSHNDCTRL &&& not32 (shl32 1 (faultEnableBit kind))) } := by
  rcases hk with h | h | h <;> subst h <;> rfl

theorem faultEnableBit_lt (kind : Nat) : faultEnableBit kind < 32 := by
  unfold faultEnableBit
  split
  · decide
  · split <;> decide

/-- C7: for mem-fault, bus-fault and usage-fault, `NVIC_EnableException` sets and
`NVIC_DisableException` clears bit 16, 17 or 18 of the system-handler-control register,
every other bit of it and every other register keeping its value; for every other 8-bit
kind both return the register file they were given. -/
theorem NVIC_EnableException_DisableException_bit (kind : Nat) (s : RegFile)
    (_hk : kind ≤ 255) (hwf : s.WF) :
    ((kind = EXCEPTION_MEM_FAULT_TYPE ∨ kind = EXCEPTION_BUS_FAULT_TYPE ∨
        kind = EXCEPTION_USAGE_FAULT_TYPE) →
      ((NVIC_EnableException kind s).NVIC_SYSTEM_SYSHNDCTRL.testBit (faultEnableBit kind)
          = true ∧
        (∀ j, j ≠ faultEnableBit kind →
          (NVIC_EnableException kind s).NVIC_SYSTEM_SYSHNDCTRL.testBit j
            = s.NVIC_SYSTEM_SYSHNDCTRL.testBit j) ∧
        NVIC_EnableException kind s = { s with NVIC_SYSTEM_SYSHNDCTRL :=
            (NVIC_EnableException kind s).NVIC_SYSTEM_SYSHNDCTRL }) ∧
      ((NVIC_DisableException kind s).NVIC_SYSTEM_SYSHNDCTRL.testBit (faultEnableBit kind)
          = false ∧
        (∀ j, j ≠ faultEnableBit kind →
          (NVIC_DisableException kind s).NVIC_SYSTEM_SYSHNDCTRL.testBit j
            = s.NVIC_SYSTEM_SYSHNDCTRL.testBit j) ∧
        NVIC_DisableException kind s = { s with NVIC_SYSTEM_SYSHNDCTRL :=
            (NVIC_DisableException kind s).NVIC_SYSTEM_SYSHNDCTRL })) ∧
    (¬ (kind = EXCEPTION_MEM_FAULT_TYPE ∨ kind = EXCEPTION_BUS_FAULT_TYPE ∨
        kind = EXCEPTION_USAGE_FAULT_TYPE) →
      NVIC_EnableException kind s = s ∧ NVIC_DisableException kind s = s) := by
  have hx : s.NVIC_SYSTEM_SYSHNDCTRL < 2 ^ 32 := hwf.2.2.2.2.2.1
  have hb := faultEnableBit_lt kind
  simp only [EXCEPTION_MEM_FAULT_TYPE, EXCEPTION_BUS_FAULT_TYPE, EXCEPTION_USAGE_FAULT_TYPE]
  refine ⟨fun hkind => ⟨⟨?_, ?_, ?_⟩, ?_, ?_, ?_⟩, fun hkind => ?_⟩
  · rw [NVIC_EnableException_fault kind s hkind]
    simp [testBit_setBit hx, hb]
  · intro j hj
    rw [NVIC_EnableException_fault kind s hkind]
    simp [testBit_setBit hx, hj]
  · rw [NVIC_EnableException_fault kind s hkind]
  · rw [NVIC_DisableException_fault kind s hkind]
    simp [testBit_clearBit hx, hb]
  · intro j hj
    rw [NVIC_DisableException_fault kind s hkind]
    simp [testBit_clearBit hx, hj]
  · rw [NVIC_DisableException_fault kind s hkind]
  · have h3 : kind ≠ 3 := fun h => hkind (Or.inl h)
    have h4 : kind ≠ 4 := fun h => hkind (Or.inr (Or.inl h))
    have h5 : kind ≠ 5 := fun h => hkind (Or.inr (Or.inr h))
    simp [NVIC_EnableException, NVIC_DisableException, EXCEPTION_MEM_FAULT_TYPE,
      EXCEPTION_BUS_FAULT_TYPE, EXCEPTION_USAGE_FAULT_TYPE, h3, h4, h5]

theorem NVIC_EnableException_DisableException_bit_witness :
    (((NVIC_EnableException 4 RegFile.sample).NVIC_SYSTEM_SYSHNDCTRL.testBit (faultEnableBit 4)
          = true ∧
        (∀ j, j ≠ faultEnableBit 4 →
          (NVIC_EnableException 4 RegFile.sample).NVIC_SYSTEM_SYSHNDCTRL.testBit j
            = RegFile.sample.NVIC_SYSTEM_SYSHNDCTRL.testBit j) ∧
        NVIC_EnableException 4 RegFile.sample = { RegFile.sample with NVIC_SYSTEM_SYSHNDCTRL :=
            (NVIC_EnableException 4 RegFile.sample).NVIC_SYSTEM_SYSHNDCTRL }) ∧
      ((NVIC_DisableException 4 RegFile.sample).NVIC_SYSTEM_SYSHNDCTRL.testBit (faultEnableBit 4)
          = false ∧
        (∀ j, j ≠ faultEnableBit 4 →
          (NVIC_DisableException 4 RegFile.sample).NVIC_SYSTEM_SYSHNDCTRL.testBit j
            = RegFile.sample.NVIC_SYSTEM_SYSHNDCTRL.testBit j) ∧
        NVIC_DisableException 4 RegFile.sample = { RegFile.sample with NVIC_SYSTEM_SYSHNDCTRL :=
            (NVIC_DisableException 4 RegFile.sample).NVIC_SYSTEM_SYSHNDCTRL })) ∧
    (NVIC_EnableException 9 RegFile.sample = RegFile.sample ∧
      NVIC_DisableException 9 RegFile.sample = RegFile.sample) :=
  ⟨(NVIC_EnableException_DisableException_bit 4 RegFile.sample (by decide)
      RegFile.sample_WF).1 (Or.inr (Or.inl rfl)),
    (NVIC_EnableException_DisableException_bit 9 RegFile.sample (by decide)
      RegFile.sample_WF).2 (by decide)⟩

/-! ## Idempotence -/

theorem word_or_idem (x m : Nat) : toU32 (toU32 (x ||| m) ||| m) = toU32 (x ||| m) := by
  apply Nat.eq_of_testBit_eq
  intro j
  simp only [testBit_toU32, Nat.testBit_or]
  cases decide (j < 32) <;> cases x.testBit j <;> cases m.testBit j <;> rfl

theorem word_andnot_idem (x m : Nat) :
    toU32 (toU32 (x &&& not32 m) &&& not32 m) = toU32 (x &&& not32 m) := by
  apply Nat.eq_of_testBit_eq
  intro j
  simp only [testBit_toU32, Nat.testBit_and, testBit_not32]
  cases decide (j < 32) <;> cases x.testBit j <;> cases m.testBit j <;> rfl

theorem word_field_idem (x m v : Nat) :
    toU32 ((toU32 ((x &&& not32 m) ||| v) &&& not32 m) ||| v)
      = toU32 ((x &&& not32 m) ||| v) := by
  apply Nat.eq_of_testBit_eq
  intro j
  simp only [testBit_toU32, Nat.testBit_and, Nat.testBit_or, testBit_not32]
  cases decide (j < 32) <;> cases x.testBit j <;> cases m.testBit j <;>
    cases v.testBit j <;> rfl

theorem NVIC_EnableIRQ_idem (irq : Nat) (s : RegFile) :
    NVIC_EnableIRQ irq (NVIC_EnableIRQ irq s) = NVIC_EnableIRQ irq s := by
  by_cases h : irq < 32 <;> simp [NVIC_EnableIRQ, h, word_or_idem]

theorem NVIC_DisableIRQ_idem (irq : Nat) (s : RegFile) :
    NVIC_DisableIRQ irq (NVIC_DisableIRQ irq s) = NVIC_DisableIRQ irq s := by
  by_cases h : irq < 32 <;> simp [NVIC_DisableIRQ, h, word_andnot_idem]

theorem NVIC_SetPriorityIRQ_idem (irq priority : Nat) (s : RegFile) :
    NVIC_SetPriorityIRQ irq priority (NVIC_SetPriorityIRQ irq priority s)
      = NVIC_SetPriorityIRQ irq priority s := by
  simp only [NVIC_SetPriorityIRQ, if_true, word_field_idem]
  congr 1
  funext k
  by_cases hk : k = irq / 4 <;> simp [hk]

theorem NVIC_SetPriorityException_idem (kind priority : Nat) (s : RegFile) :
    NVIC_SetPriorityException kind priority (NVIC_SetPriorityException kind priority s)
      = NVIC_SetPriorityException kind priority s := by
  unfold NVIC_SetPriorityException
  split_ifs <;> simp only [word_field_idem]

theorem NVIC_EnableException_idem (kind : Nat) (s : RegFile) :
    NVIC_EnableException kind (NVIC_EnableException kind s) = NVIC_EnableException kind s := by
  unfold NVIC_EnableException
  split_ifs <;> simp only [word_or_idem]

theorem NVIC_DisableException_idem (kind : Nat) (s : RegFile) :
    NVIC_DisableException kind (NVIC_DisableException kind s)
      = NVIC_DisableException kind s := by
  unfold NVIC_DisableException
  split_ifs <;> simp only [word_andnot_idem]

theorem SysTick_Start_idem (s : RegFile) : SysTick_Start (SysTick_Start s) = SysTick_Start s := by
  simp only [SysTick_Start, word_or_idem]

theorem SysTick_Stop_idem (s : RegFile) : SysTick_Stop (SysTick_Stop s) = SysTick_Stop s := by
  simp only [SysTick_Stop, word_andnot_idem]

/-- C9: each of `NVIC_EnableIRQ`, `NVIC_DisableIRQ`, `NVIC_SetPriorityIRQ`,
`NVIC_SetPriorityException`, `NVIC_EnableException`, `NVIC_DisableException`,
`SysTick_Start` and `SysTick_Stop` is idempotent: applied twice with the same arguments
it gives the register file that one application gives.  This holds for all arguments, in
particular for all 8-bit ones, and for every register file. -/
theorem register_operations_idempotent (irq priority kind : Nat) (s : RegFile) :
    NVIC_EnableIRQ irq (NVIC_EnableIRQ irq s) = NVIC_EnableIRQ irq s ∧
    NVIC_DisableIRQ irq (NVIC_DisableIRQ irq s) = NVIC_DisableIRQ irq s ∧
    NVIC_SetPriorityIRQ irq priority (NVIC_SetPriorityIRQ irq priority s)
      = NVIC_SetPriorityIRQ irq priority s ∧
    NVIC_SetPriorityException kind priority (NVIC_SetPriorityException kind priority s)
      = NVIC_SetPriorityException kind priority s ∧
    NVIC_EnableException kind (NVIC_EnableException kind s) = NVIC_EnableException kind s ∧
    NVIC_DisableException kind (NVIC_DisableException kind s)
      = NVIC_DisableException kind s ∧
    SysTick_Start (SysTick_Start s) = SysTick_Start s ∧
    SysTick_Stop (SysTick_Stop s) = SysTick_Stop s :=
  ⟨NVIC_EnableIRQ_idem irq s, NVIC_DisableIRQ_idem irq s,
    NVIC_SetPriorityIRQ_idem irq priority s, NVIC_SetPriorityException_idem kind priority s,
    NVIC_EnableException_idem kind s, NVIC_DisableException_idem kind s,
    SysTick_Start_idem s, SysTick_Stop_idem s⟩

/-! ## SysTick initialisation -/

theorem intToU32_reload (d : Nat) (h1 : 1 ≤ d) (h2 : d ≤ 65535) :
    (intToU32 (16000 * (d : Int) - 1) : Int) = 16000 * (d : Int) - 1 := by
  unfold intToU32
  omega

/-- C10: for `1 ≤ d ≤ 65535`, `SysTick_Init(d)` leaves the reload register equal to the
integer `16000 * d - 1` (no wraparound), the current register equal to 0 and the control
register equal to `0x07`; for `d = 10` the reload value is 159999. -/
theorem SysTick_Init_registers (d : Nat) (s : RegFile) (h1 : 1 ≤ d) (h2 : d ≤ 65535) :
    ((SysTick_Init d s).SYSTICK_RELOAD_REG : Int) = 16000 * (d : Int) - 1 ∧
    (SysTick_Init d s).SYSTICK_RELOAD_REG = 16000 * d - 1 ∧
    (SysTick_Init d s).SYSTICK_CURRENT_REG = 0 ∧
    (SysTick_Init d s).SYSTICK_CTRL_REG = 0x07 ∧
    (SysTick_Init 10 s).SYSTICK_RELOAD_REG = 159999 := by
  have h := intToU32_reload d h1 h2
  refine ⟨h, ?_, rfl, rfl, ?_⟩
  · show intToU32 (16000 * (d : Int) - 1) = 16000 * d - 1
    omega
  · show intToU32 (16000 * ((10 : Nat) : Int) - 1) = 159999
    decide

theorem SysTick_Init_registers_witness :
    ((SysTick_Init 65535 RegFile.sample).SYSTICK_RELOAD_REG : Int)
      = 16000 * ((65535 : Nat) : Int) - 1 ∧
    (SysTick_Init 65535 RegFile.sample).SYSTICK_RELOAD_REG = 16000 * 65535 - 1 ∧
    (SysTick_Init 65535 RegFile.sample).SYSTICK_CURRENT_REG = 0 ∧
    (SysTick_Init 65535 RegFile.sample).SYSTICK_CTRL_REG = 0x07 ∧
    (SysTick_Init 10 RegFile.sample).SYSTICK_RELOAD_REG = 159999 :=
  SysTick_Init_registers 65535 RegFile.sample (by decide) (by decide)

/-! ## Callback registration and dispatch -/

theorem SysTick_Handler_none (body : Nat → RegFile → RegFile) (m : Machine)
    (h : m.regs.g_SysTickCallBackPtr = none) : SysTick_Handler body m = m := by
  simp only [SysTick_Handler, h]

theorem SysTick_Handler_some (body : Nat → RegFile → RegFile) (m : Machine) (f : Nat)
    (h : m.regs.g_SysTickCallBackPtr = some f) :
    SysTick_Handler body m = { regs := body f m.regs, invoked := m.invoked ++ [f] } := by
  simp only [SysTick_Handler, h]

theorem SysTick_Handler_iterate_none (body : Nat → RegFile → RegFile) (m : Machine)
    (h : m.regs.g_SysTickCallBackPtr = none) (n : Nat) :
    (SysTick_Handler body)^[n] m = m := by
  induction n with
  | zero => rfl
  | succ n ih => rw [Function.iterate_succ_apply', ih, SysTick_Handler_none body m h]

theorem SysTick_Handler_iterate_some (body : Nat → RegFile → RegFile) (f : Nat)
    (hkeep : ∀ r, (body f r).g_SysTickCallBackPtr = r.g_SysTickCallBackPtr) (m : Machine)
    (h : m.regs.g_SysTickCallBackPtr = some f) (n : Nat) :
    (SysTick_Handler body)^[n] m
      = { regs := (body f)^[n] m.regs, invoked := m.invoked ++ List.replicate n f } ∧
    ((body f)^[n] m.regs).g_SysTickCallBackPtr = some f := by
  induction n with
  | zero => exact ⟨by simp, h⟩
  | succ n ih =>
    obtain ⟨ih1, ih2⟩ := ih
    constructor
    · rw [Function.iterate_succ_apply', ih1, SysTick_Handler_some body _ f ih2,
        Function.iterate_succ_apply', List.replicate_succ', List.append_assoc]
    · rw [Function.iterate_succ_apply', hkeep, ih2]

/-- C11: with an empty callback slot `SysTick_Handler` returns the machine it was given
(nothing changed, nothing invoked), and so does any number of consecutive dispatches.
With `f` registered, one dispatch appends exactly one invocation of `f` to the log and
the register file is what the call of `f` left: the handler adds no write of its own
(a callback that writes nothing leaves the slot and the timer registers as they were).
When the callback keeps the slot, `n` dispatches append exactly `n` invocations of `f`. -/
theorem SysTick_Handler_dispatch (body : Nat → RegFile → RegFile) (m : Machine) (n : Nat) :
    (m.regs.g_SysTickCallBackPtr = none →
      SysTick_Handler body m = m ∧ (SysTick_Handler body)^[n] m = m) ∧
    (∀ f, m.regs.g_SysTickCallBackPtr = some f →
      (SysTick_Handler body m).invoked = m.invoked ++ [f] ∧
      (SysTick_Handler body m).regs = body f m.regs ∧
      (SysTick_Handler (fun _ r => r) m).regs = m.regs ∧
      ((∀ r, (body f r).g_SysTickCallBackPtr = r.g_SysTickCallBackPtr) →
        ((SysTick_Handler body)^[n] m).invoked = m.invoked ++ List.replicate n f ∧
        ((SysTick_Handler body)^[n] m).regs = (body f)^[n] m.regs)) := by
  refine ⟨fun h => ⟨SysTick_Handler_none body m h, SysTick_Handler_iterate_none body m h n⟩,
    fun f h => ⟨?_, ?_, ?_, fun hkeep => ?_⟩⟩
  · rw [SysTick_Handler_some body m f h]
  · rw [SysTick_Handler_some body m f h]
  · rw [SysTick_Handler_some _ m f h]
  · rw [(SysTick_Handler_iterate_some body f hkeep m h n).1]
    exact ⟨rfl, rfl⟩

theorem SysTick_Handler_dispatch_witness :
    (SysTick_Handler (fun _ r => r) (Machine.exec (SysTick_SetCallBack none) Machine.sample)
        = Machine.exec (SysTick_SetCallBack none) Machine.sample ∧
      (SysTick_Handler (fun _ r => r))^[4] (Machine.exec (SysTick_SetCallBack none) Machine.sample)
        = Machine.exec (SysTick_SetCallBack none) Machine.sample) ∧
    (((SysTick_Handler (fun _ r => SysTick_Stop r))^[4] Machine.sample).invoked
        = Machine.sample.invoked ++ List.replicate 4 1 ∧
      ((SysTick_Handler (fun _ r => SysTick_Stop r))^[4] Machine.sample).regs
        = (fun r => SysTick_Stop r)^[4] Machine.sample.regs) :=
  ⟨(SysTick_Handler_dispatch (fun _ r => r)
      (Machine.exec (SysTick_SetCallBack none) Machine.sample) 4).1 rfl,
    ((SysTick_Handler_dispatch (fun _ r => SysTick_Stop r) Machine.sample 4).2 1 rfl).2.2.2
      (fun _ => rfl)⟩

theorem registerAll_append (args : List (Option Nat)) (last : Option Nat) (m : Machine) :
    registerAll (args ++ [last]) m
      = (registerAll args m).exec (SysTick_SetCallBack last) := by
  simp only [registerAll, List.foldl_append, List.foldl_cons, List.foldl_nil]

theorem registerAll_invoked (args : List (Option Nat)) (m : Machine) :
    (registerAll args m).invoked = m.invoked := by
  induction args generalizing m with
  | nil => rfl
  | cons a rest ih =>
    show (registerAll rest (m.exec (SysTick_SetCallBack a))).invoked = m.invoked
    rw [ih]
    rfl

/-- C12: after any sequence of `SysTick_SetCallBack` calls that ends with the argument
`last`, the invocation log is the one before the calls (registration invokes nothing), the
slot holds `last`, a following `SysTick_Handler` appends to the log exactly `last` when it
is a function and nothing when it is the null pointer, and in that case returns the
machine unchanged. -/
theorem SysTick_SetCallBack_last_writer_wins (body : Nat → RegFile → RegFile)
    (args : List (Option Nat)) (last : Option Nat) (m : Machine) :
    (registerAll (args ++ [last]) m).invoked = m.invoked ∧
    (registerAll (args ++ [last]) m).regs.g_SysTickCallBackPtr = last ∧
    (SysTick_Handler body (registerAll (args ++ [last]) m)).invoked
      = m.invoked ++ last.toList ∧
    (last = none →
      SysTick_Handler body (registerAll (args ++ [last]) m)
        = registerAll (args ++ [last]) m) := by
  have hinv := registerAll_invoked (args ++ [last]) m
  have hslot : (registerAll (args ++ [last]) m).regs.g_SysTickCallBackPtr = last := by
    rw [registerAll_append]
    rfl
  refine ⟨hinv, hslot, ?_, fun hl => ?_⟩
  · cases last with
    | none => rw [SysTick_Handler_none body _ hslot, hinv]; simp
    | some f => rw [SysTick_Handler_some body _ f hslot]; simp [hinv]
  · rw [hl] at hslot
    rw [hl]
    exact SysTick_Handler_none body _ hslot

theorem SysTick_SetCallBack_last_writer_wins_witness :
    (SysTick_Handler (fun _ r => r)
        (registerAll ([some 1, none, some 2] ++ [some 3]) Machine.sample)).invoked
      = Machine.sample.invoked ++ (some 3).toList ∧
    SysTick_Handler (fun _ r => r) (registerAll ([some 1, some 2] ++ [none]) Machine.sample)
      = registerAll ([some 1, some 2] ++ [none]) Machine.sample :=
  ⟨(SysTick_SetCallBack_last_writer_wins (fun _ r => r) [some 1, none, some 2] (some 3)
      Machine.sample).2.2.1,
    (SysTick_SetCallBack_last_writer_wins (fun _ r => r) [some 1, some 2] none
      Machine.sample).2.2.2 rfl⟩

/-! ## SysTick start, stop and de-initialisation -/

theorem SysTick_Start_bit (t : RegFile) (ht : t.SYSTICK_CTRL_REG < 2 ^ 32) (j : Nat) :
    (SysTick_Start t).SYSTICK_CTRL_REG.testBit j
      = (t.SYSTICK_CTRL_REG.testBit j || (decide (j < 32) && decide (j = 0))) :=
  testBit_setBit ht 0 j

theorem SysTick_Stop_bit (t : RegFile) (ht : t.SYSTICK_CTRL_REG < 2 ^ 32) (j : Nat) :
    (SysTick_Stop t).SYSTICK_CTRL_REG.testBit j
      = (t.SYSTICK_CTRL_REG.testBit j && !(decide (j < 32) && decide (j = 0))) :=
  testBit_clearBit ht 0 j

/-- C13: after `SysTick_Init(d)`, `SysTick_Stop` followed by `SysTick_Start` gives back
the register file that `SysTick_Init(d)` left: control `0x07`, reload
`(16000 * d - 1) mod 2 ^ 32`, current 0.  In any register file `t` with 32-bit registers,
`SysTick_Stop` clears and `SysTick_Start` sets bit 0 of the control register and neither
changes any other bit of it nor any other register. -/
theorem SysTick_Stop_Start_restore (d : Nat) (s t : RegFile) (hwf : t.WF) :
    SysTick_Start (SysTick_Stop (SysTick_Init d s)) = SysTick_Init d s ∧
    (SysTick_Start (SysTick_Stop (SysTick_Init d s))).SYSTICK_CTRL_REG = 0x07 ∧
    (SysTick_Start (SysTick_Stop (SysTick_Init d s))).SYSTICK_RELOAD_REG
      = ((16000 * (d : Int) - 1) % 2 ^ 32).toNat ∧
    (SysTick_Start (SysTick_Stop (SysTick_Init d s))).SYSTICK_CURRENT_REG = 0 ∧
    (SysTick_Stop t).SYSTICK_CTRL_REG.testBit 0 = false ∧
    (SysTick_Start t).SYSTICK_CTRL_REG.testBit 0 = true ∧
    (∀ j, j ≠ 0 →
      (SysTick_Stop t).SYSTICK_CTRL_REG.testBit j = t.SYSTICK_CTRL_REG.testBit j ∧
      (SysTick_Start t).SYSTICK_CTRL_REG.testBit j = t.SYSTICK_CTRL_REG.testBit j) ∧
    SysTick_Stop t = { t with SYSTICK_CTRL_REG := (SysTick_Stop t).SYSTICK_CTRL_REG } ∧
    SysTick_Start t = { t with SYSTICK_CTRL_REG := (SysTick_Start t).SYSTICK_CTRL_REG } := by
  have ht : t.SYSTICK_CTRL_REG < 2 ^ 32 := hwf.2.2.2.2.2.2.1
  have hctrl : toU32 (toU32 (0x07 &&& not32 0x01) ||| 0x01) = 0x07 := by decide
  have hrestore : SysTick_Start (SysTick_Stop (SysTick_Init d s)) = SysTick_Init d s := by
    simp only [SysTick_Start, SysTick_Stop, SysTick_Init, hctrl]
  refine ⟨hrestore, ?_, ?_, ?_, ?_, ?_, ?_, rfl, rfl⟩
  · rw [hrestore]; rfl
  · rw [hrestore]; rfl
  · rw [hrestore]; rfl
  · rw [SysTick_Stop_bit t ht]; simp
  · rw [SysTick_Start_bit t ht]; simp
  · intro j hj
    rw [SysTick_Stop_bit t ht, SysTick_Start_bit t ht]
    simp [hj]

theorem SysTick_Stop_Start_restore_witness :
    SysTick_Start (SysTick_Stop (SysTick_Init 10 RegFile.zero)) = SysTick_Init 10 RegFile.zero ∧
    (SysTick_Start (SysTick_Stop (SysTick_Init 10 RegFile.zero))).SYSTICK_CTRL_REG = 0x07 ∧
    (SysTick_Start (SysTick_Stop (SysTick_Init 10 RegFile.zero))).SYSTICK_RELOAD_REG
      = ((16000 * ((10 : Nat) : Int) - 1) % 2 ^ 32).toNat ∧
    (SysTick_Start (SysTick_Stop (SysTick_Init 10 RegFile.zero))).SYSTICK_CURRENT_REG = 0 ∧
    (SysTick_Stop RegFile.sample).SYSTICK_CTRL_REG.testBit 0 = false ∧
    (SysTick_Start RegFile.sample).SYSTICK_CTRL_REG.testBit 0 = true ∧
    (∀ j, j ≠ 0 →
      (SysTick_Stop RegFile.sample).SYSTICK_CTRL_REG.testBit j
        = RegFile.sample.SYSTICK_CTRL_REG.testBit j ∧
      (SysTick_Start RegFile.sample).SYSTICK_CTRL_REG.testBit j
        = RegFile.sample.SYSTICK_CTRL_REG.testBit j) ∧
    SysTick_Stop RegFile.sample = { RegFile.sample with
      SYSTICK_CTRL_REG := (SysTick_Stop RegFile.sample).SYSTICK_CTRL_REG } ∧
    SysTick_Start RegFile.sample = { RegFile.sample with
      SYSTICK_CTRL_REG := (SysTick_Start RegFile.sample).SYSTICK_CTRL_REG } :=
  SysTick_Stop_Start_restore 10 RegFile.zero RegFile.sample RegFile.sample_WF

/-- C16: whatever the register file before (never initialised, running after
`SysTick_Init`, stopped after `SysTick_Stop`, any contents), `SysTick_DeInit` leaves the
control, reload and current registers equal to 0, and changes nothing else. -/
theorem SysTick_DeInit_zeroes (d : Nat) (s : RegFile) :
    ((SysTick_DeInit s).SYSTICK_CTRL_REG = 0 ∧ (SysTick_DeInit s).SYSTICK_RELOAD_REG = 0 ∧
      (SysTick_DeInit s).SYSTICK_CURRENT_REG = 0) ∧
    ((SysTick_DeInit (SysTick_Init d s)).SYSTICK_CTRL_REG = 0 ∧
      (SysTick_DeInit (SysTick_Init d s)).SYSTICK_RELOAD_REG = 0 ∧
      (SysTick_DeInit (SysTick_Init d s)).SYSTICK_CURRENT_REG = 0) ∧
    ((SysTick_DeInit (SysTick_Stop (SysTick_Init d s))).SYSTICK_CTRL_REG = 0 ∧
      (SysTick_DeInit (SysTick_Stop (SysTick_Init d s))).SYSTICK_RELOAD_REG = 0 ∧
      (SysTick_DeInit (SysTick_Stop (SysTick_Init d s))).SYSTICK_CURRENT_REG = 0) ∧
    SysTick_DeInit s
      = { s with SYSTICK_CTRL_REG := 0, SYSTICK_RELOAD_REG := 0, SYSTICK_CURRENT_REG := 0 } :=
  ⟨⟨rfl, rfl, rfl⟩, ⟨rfl, rfl, rfl⟩, ⟨rfl, rfl, rfl⟩, rfl⟩

/-! ## Reload values of `SysTick_Init` -/

theorem SysTick_Init_reload (d : Nat) (s : RegFile) :
    (SysTick_Init d s).SYSTICK_RELOAD_REG = intToU32 (16000 * (d : Int) - 1) := rfl

/-- C17: `SysTick_Init(0)` writes `0xFFFFFFFF` (`2 ^ 32 - 1`), not 0, into the reload
register: the value `16000 * 0 - 1 = -1` wraps in the conversion to `uint32`.  The current
register is 0 and the control register `0x07`, as for any other duration. -/
theorem SysTick_Init_zero_duration (s : RegFile) :
    (SysTick_Init 0 s).SYSTICK_RELOAD_REG = 0xFFFFFFFF ∧
    (SysTick_Init 0 s).SYSTICK_RELOAD_REG = 2 ^ 32 - 1 ∧
    (SysTick_Init 0 s).SYSTICK_RELOAD_REG ≠ 0 ∧
    (SysTick_Init 0 s).SYSTICK_CURRENT_REG = 0 ∧
    (SysTick_Init 0 s).SYSTICK_CTRL_REG = 0x07 := by
  have h : (SysTick_Init 0 s).SYSTICK_RELOAD_REG = 0xFFFFFFFF := by
    rw [SysTick_Init_reload]
    decide
  refine ⟨h, ?_, ?_, rfl, rfl⟩
  · rw [h]; decide
  · rw [h]; decide

/-- C19: for a `uint16` duration `d`, the reload value written by `SysTick_Init(d)` is
below `2 ^ 24` exactly when `1 ≤ d ≤ 1048`.  It is 16767999 for `d = 1048`, at least
`2 ^ 24` for `1049 ≤ d ≤ 65535` and `0xFFFFFFFF` for `d = 0`; for `d ≥ 1` it is the
unclamped value `16000 * d - 1`. -/
theorem SysTick_Init_reload_fits_24_bits (d : Nat) (s : RegFile) (hd : d ≤ 65535) :
    ((SysTick_Init d s).SYSTICK_RELOAD_REG < 2 ^ 24 ↔ 1 ≤ d ∧ d ≤ 1048) ∧
    (SysTick_Init 1048 s).SYSTICK_RELOAD_REG = 16767999 ∧
    (1049 ≤ d → 2 ^ 24 ≤ (SysTick_Init d s).SYSTICK_RELOAD_REG) ∧
    (SysTick_Init 0 s).SYSTICK_RELOAD_REG = 0xFFFFFFFF ∧
    (1 ≤ d → (SysTick_Init d s).SYSTICK_RELOAD_REG = 16000 * d - 1) := by
  simp only [SysTick_Init_reload]
  have hpos : 1 ≤ d → intToU32 (16000 * (d : Int) - 1) = 16000 * d - 1 := by
    intro h1
    unfold intToU32
    omega
  have hzero : intToU32 (16000 * ((0 : Nat) : Int) - 1) = 0xFFFFFFFF := by decide
  refine ⟨?_, by decide, ?_, hzero, hpos⟩
  · by_cases h0 : d = 0
    · subst h0
      rw [hzero]
      decide
    · rw [hpos (by omega)]
      omega
  · intro h
    rw [hpos (by omega)]
    omega

theorem SysTick_Init_reload_fits_24_bits_witness :
    ((SysTick_Init 1049 RegFile.sample).SYSTICK_RELOAD_REG < 2 ^ 24 ↔ 1 ≤ 1049 ∧ 1049 ≤ 1048) ∧
    (SysTick_Init 1048 RegFile.sample).SYSTICK_RELOAD_REG = 16767999 ∧
    2 ^ 24 ≤ (SysTick_Init 1049 RegFile.sample).SYSTICK_RELOAD_REG ∧
    (SysTick_Init 0 RegFile.sample).SYSTICK_RELOAD_REG = 0xFFFFFFFF ∧
    (SysTick_Init 1049 RegFile.sample).SYSTICK_RELOAD_REG = 16000 * 1049 - 1 :=
  ⟨(SysTick_Init_reload_fits_24_bits 1049 RegFile.sample (by decide)).1,
    (SysTick_Init_reload_fits_24_bits 1049 RegFile.sample (by decide)).2.1,
    (SysTick_Init_reload_fits_24_bits 1049 RegFile.sample (by decide)).2.2.1 (by decide),
    (SysTick_Init_reload_fits_24_bits 1049 RegFile.sample (by decide)).2.2.2.1,
    (SysTick_Init_reload_fits_24_bits 1049 RegFile.sample (by decide)).2.2.2.2 (by decide)⟩

/-! ## Busy wait -/

/-- The loop test `(x & 0x10000) == 0` holds exactly when bit 16 of `x` is clear. -/
theorem count_flag_clear_iff (x : Nat) : x &&& 0x10000 = 0 ↔ x.testBit 16 = false := by
  have hmask : (0x10000 : Nat) = 2 ^ 16 := by decide
  constructor
  · intro h
    have h1 : (x &&& 0x10000).testBit 16 = false := by rw [h]; exact Nat.zero_testBit 16
    rw [Nat.testBit_and, hmask, Nat.testBit_two_pow_self, Bool.and_true] at h1
    exact h1
  · intro h
    apply Nat.eq_of_testBit_eq
    intro j
    rw [Nat.testBit_and, hmask, Nat.testBit_two_pow, Nat.zero_testBit]
    by_cases hj : 16 = j
    · subst hj; simp [h]
    · simp [hj]

theorem busyWaitLoop_first (polls : Nat → Nat) (n : Nat)
    (hset : (polls n).testBit 16 = true) :
    ∀ fuel k, k ≤ n → n < k + fuel → (∀ i, k ≤ i → i < n → (polls i).testBit 16 = false) →
      busyWaitLoop polls fuel k = some n := by
  intro fuel
  induction fuel with
  | zero => intro k h1 h2 _; omega
  | succ fuel ih =>
    intro k h1 h2 hclear
    by_cases hk : k = n
    · subst hk
      have hne : ¬ polls k &&& 0x10000 = 0 := by
        rw [count_flag_clear_iff, hset]; simp
      simp only [busyWaitLoop, if_neg hne]
    · have hlt : k < n := by omega
      have he : polls k &&& 0x10000 = 0 := (count_flag_clear_iff _).mpr (hclear k (le_refl k) hlt)
      simp only [busyWaitLoop, if_pos he]
      exact ih (k + 1) (by omega) (by omega) (fun i hi1 hi2 => hclear i (by omega) hi2)

theorem busyWaitLoop_sound (polls : Nat → Nat) :
    ∀ fuel k n, busyWaitLoop polls fuel k = some n →
      k ≤ n ∧ n < k + fuel ∧ (polls n).testBit 16 = true ∧
      ∀ i, k ≤ i → i < n → (polls i).testBit 16 = false := by
  intro fuel
  induction fuel with
  | zero => intro k n h; simp [busyWaitLoop] at h
  | succ fuel ih =>
    intro k n h
    by_cases he : polls k &&& 0x10000 = 0
    · simp only [busyWaitLoop, if_pos he] at h
      obtain ⟨h1, h2, h3, h4⟩ := ih (k + 1) n h
      refine ⟨by omega, by omega, h3, fun i hi1 hi2 => ?_⟩
      by_cases hik : i = k
      · subst hik; exact (count_flag_clear_iff _).mp he
      · exact h4 i (by omega) hi2
    · simp only [busyWaitLoop, if_neg he, Option.some.injEq] at h
      subst h
      refine ⟨le_refl k, by omega, ?_, fun i hi1 hi2 => by omega⟩
      cases hb : (polls k).testBit 16 with
      | true => rfl
      | false => exact absurd ((count_flag_clear_iff _).mpr hb) he

theorem busyWaitLoop_never (polls : Nat → Nat) (hclear : ∀ i, (polls i).testBit 16 = false) :
    ∀ fuel k, busyWaitLoop polls fuel k = none := by
  intro fuel
  induction fuel with
  | zero => intro k; rfl
  | succ fuel ih =>
    intro k
    simp only [busyWaitLoop, if_pos ((count_flag_clear_iff _).mpr (hclear k))]
    exact ih (k + 1)

theorem SysTick_StartBusyWait_eq (polls : Nat → Nat) (fuel delay_ms : Nat) (m : Machine) :
    SysTick_StartBusyWait polls fuel delay_ms m
      = (busyWaitLoop polls fuel 0).map (fun n => (SysTick_StartBusyWait_setup delay_ms m, n)) := by
  unfold SysTick_StartBusyWait
  cases busyWaitLoop polls fuel 0 <;> rfl

/-- C14: with the successive reads of the control register given by any sequence `polls`,
`SysTick_StartBusyWait` returns at read `n` whenever read `n` is the first one with bit 16
set and the fuel allows more than `n` reads, and has not returned after `n` reads or
fewer; whenever it returns, it is at a read with bit 16 set that no such read precedes;
when no read ever has bit 16 set it does not return, whatever the fuel. -/
theorem SysTick_StartBusyWait_returns_at_first_flag (polls : Nat → Nat) (delay_ms : Nat)
    (m : Machine) :
    (∀ n, (polls n).testBit 16 = true → (∀ i, i < n → (polls i).testBit 16 = false) →
      (∀ fuel, n < fuel →
        SysTick_StartBusyWait polls fuel delay_ms m
          = some (SysTick_StartBusyWait_setup delay_ms m, n)) ∧
      (∀ fuel, fuel ≤ n → SysTick_StartBusyWait polls fuel delay_ms m = none)) ∧
    (∀ fuel r n, SysTick_StartBusyWait polls fuel delay_ms m = some (r, n) →
      (polls n).testBit 16 = true ∧ ∀ i, i < n → (polls i).testBit 16 = false) ∧
    ((∀ i, (polls i).testBit 16 = false) →
      ∀ fuel, SysTick_StartBusyWait polls fuel delay_ms m = none) := by
  refine ⟨fun n hset hclear => ⟨fun fuel hfuel => ?_, fun fuel hfuel => ?_⟩,
    fun fuel r n h => ?_, fun hclear fuel => ?_⟩
  · rw [SysTick_StartBusyWait_eq,
      busyWaitLoop_first polls n hset fuel 0 (Nat.zero_le n) (by omega)
        (fun i _ hi => hclear i hi)]
    rfl
  · rw [SysTick_StartBusyWait_eq]
    cases hloop : busyWaitLoop polls fuel 0 with
    | none => rfl
    | some k =>
      obtain ⟨_, h2, h3, _⟩ := busyWaitLoop_sound polls fuel 0 k hloop
      have hk : k < n := by omega
      rw [hclear k hk] at h3
      exact absurd h3 (by simp)
  · rw [SysTick_StartBusyWait_eq] at h
    cases hloop : busyWaitLoop polls fuel 0 with
    | none => rw [hloop] at h; simp at h
    | some k =>
      rw [hloop] at h
      simp only [Option.map_some', Option.some.injEq, Prod.mk.injEq] at h
      obtain ⟨_, hk⟩ := h
      subst hk
      obtain ⟨_, _, h3, h4⟩ := busyWaitLoop_sound polls fuel 0 k hloop
      exact ⟨h3, fun i hi => h4 i (Nat.zero_le i) hi⟩
  · rw [SysTick_StartBusyWait_eq, busyWaitLoop_never polls hclear fuel 0]
    rfl

theorem samplePolls_clear (i : Nat) (hi : i < 3) : (samplePolls i).testBit 16 = false := by
  rw [samplePolls, if_pos hi]
  decide

theorem SysTick_StartBusyWait_returns_at_first_flag_witness :
    SysTick_StartBusyWait samplePolls 10 5 Machine.sample
      = some (SysTick_StartBusyWait_setup 5 Machine.sample, 3) ∧
    SysTick_StartBusyWait samplePolls 3 5 Machine.sample = none :=
  ⟨((SysTick_StartBusyWait_returns_at_first_flag samplePolls 5 Machine.sample).1 3
      (by decide) samplePolls_clear).1 10 (by decide),
    ((SysTick_StartBusyWait_returns_at_first_flag samplePolls 5 Machine.sample).1 3
      (by decide) samplePolls_clear).2 3 (le_refl 3)⟩

theorem busyWait_reload (delay_ms : Nat) :
    intToU32 ((toU32 (16000 * delay_ms) : Int) - 1)
      = ((16000 * (delay_ms : Int) - 1) % 2 ^ 32).toNat := by
  unfold intToU32 toU32
  omega

/-- C15: for a 32-bit `delay_ms`, the stores of `SysTick_StartBusyWait` that precede the
loop are, in this order, control = 0, reload = `(16000 * delay_ms - 1) mod 2 ^ 32`,
current = 0 and control = `0x05` (bits 0 and 2 set, bit 1 clear).  The machine during the
loop, which is also the machine of any return, has these register values, the invocation
log and the callback slot of the machine before the call, and nothing else changed. -/
theorem SysTick_StartBusyWait_configures (polls : Nat → Nat) (fuel delay_ms : Nat)
    (m : Machine) (_hd : delay_ms < 2 ^ 32) :
    SysTick_StartBusyWait_stores delay_ms
      = [(SysTickReg.CTRL, 0),
         (SysTickReg.RELOAD, ((16000 * (delay_ms : Int) - 1) % 2 ^ 32).toNat),
         (SysTickReg.CURRENT, 0),
         (SysTickReg.CTRL, 0x05)] ∧
    (SysTick_StartBusyWait_setup delay_ms m).regs
      = { m.regs with SYSTICK_CTRL_REG := 0x05,
                      SYSTICK_RELOAD_REG := ((16000 * (delay_ms : Int) - 1) % 2 ^ 32).toNat,
                      SYSTICK_CURRENT_REG := 0 } ∧
    ((SysTick_StartBusyWait_setup delay_ms m).regs.SYSTICK_CTRL_REG.testBit 0 = true ∧
      (SysTick_StartBusyWait_setup delay_ms m).regs.SYSTICK_CTRL_REG.testBit 1 = false ∧
      (SysTick_StartBusyWait_setup delay_ms m).regs.SYSTICK_CTRL_REG.testBit 2 = true) ∧
    (SysTick_StartBusyWait_setup delay_ms m).invoked = m.invoked ∧
    (SysTick_StartBusyWait_setup delay_ms m).regs.g_SysTickCallBackPtr
      = m.regs.g_SysTickCallBackPtr ∧
    (∀ r n, SysTick_StartBusyWait polls fuel delay_ms m = some (r, n) →
      r = SysTick_StartBusyWait_setup delay_ms m) := by
  have hstores : SysTick_StartBusyWait_stores delay_ms
      = [(SysTickReg.CTRL, 0),
         (SysTickReg.RELOAD, ((16000 * (delay_ms : Int) - 1) % 2 ^ 32).toNat),
         (SysTickReg.CURRENT, 0),
         (SysTickReg.CTRL, 0x05)] := by
    rw [SysTick_StartBusyWait_stores, busyWait_reload]
  refine ⟨hstores, ?_, ⟨(by decide : Nat.testBit 0x05 0 = true),
    (by decide : Nat.testBit 0x05 1 = false), (by decide : Nat.testBit 0x05 2 = true)⟩,
    rfl, rfl, fun r n h => ?_⟩
  · simp only [SysTick_StartBusyWait_setup, Machine.exec, hstores, List.foldl_cons,
      List.foldl_nil, RegFile.store]
  · rw [SysTick_StartBusyWait_eq] at h
    cases hloop : busyWaitLoop polls fuel 0 with
    | none => rw [hloop] at h; simp at h
    | some k =>
      rw [hloop] at h
      simp only [Option.map_some', Option.some.injEq, Prod.mk.injEq] at h
      exact h.1.symm

theorem SysTick_StartBusyWait_configures_witness :
    SysTick_StartBusyWait_stores 5
      = [(SysTickReg.CTRL, 0),
         (SysTickReg.RELOAD, ((16000 * ((5 : Nat) : Int) - 1) % 2 ^ 32).toNat),
         (SysTickReg.CURRENT, 0),
         (SysTickReg.CTRL, 0x05)] ∧
    (SysTick_StartBusyWait_setup 5 Machine.sample).regs
      = { Machine.sample.regs with
            SYSTICK_CTRL_REG := 0x05,
            SYSTICK_RELOAD_REG := ((16000 * ((5 : Nat) : Int) - 1) % 2 ^ 32).toNat,
            SYSTICK_CURRENT_REG := 0 } ∧
    ((SysTick_StartBusyWait_setup 5 Machine.sample).regs.SYSTICK_CTRL_REG.testBit 0 = true ∧
      (SysTick_StartBusyWait_setup 5 Machine.sample).regs.SYSTICK_CTRL_REG.testBit 1 = false ∧
      (SysTick_StartBusyWait_setup 5 Machine.sample).regs.SYSTICK_CTRL_REG.testBit 2 = true) ∧
    (SysTick_StartBusyWait_setup 5 Machine.sample).invoked = Machine.sample.invoked ∧
    (SysTick_StartBusyWait_setup 5 Machine.sample).regs.g_SysTickCallBackPtr
      = Machine.sample.regs.g_SysTickCallBackPtr ∧
    (∀ r n, SysTick_StartBusyWait samplePolls 10 5 Machine.sample = some (r, n) →
      r = SysTick_StartBusyWait_setup 5 Machine.sample) :=
  SysTick_StartBusyWait_configures samplePolls 10 5 Machine.sample (by decide)

theorem NVIC_SetPriorityException_callback (kind p : Nat) (s : RegFile) :
    (NVIC_SetPriorityException kind p s).g_SysTickCallBackPtr = s.g_SysTickCallBackPtr := by
  unfold NVIC_SetPriorityException
  split_ifs <;> rfl

theorem NVIC_EnableException_callback (kind : Nat) (s : RegFile) :
    (NVIC_EnableException kind s).g_SysTickCallBackPtr = s.g_SysTickCallBackPtr := by
  unfold NVIC_EnableException
  split_ifs <;> rfl

theorem NVIC_DisableException_callback (kind : Nat) (s : RegFile) :
    (NVIC_DisableException kind s).g_SysTickCallBackPtr = s.g_SysTickCallBackPtr := by
  unfold NVIC_DisableException
  split_ifs <;> rfl

theorem NVIC_EnableIRQ_callback (irq : Nat) (s : RegFile) :
    (NVIC_EnableIRQ irq s).g_SysTickCallBackPtr = s.g_SysTickCallBackPtr := by
  unfold NVIC_EnableIRQ
  split_ifs <;> rfl

theorem NVIC_DisableIRQ_callback (irq : Nat) (s : RegFile) :
    (NVIC_DisableIRQ irq s).g_SysTickCallBackPtr = s.g_SysTickCallBackPtr := by
  unfold NVIC_DisableIRQ
  split_ifs <;> rfl

/-- C18: the callback slot is changed by `SysTick_SetCallBack` only, which stores its
argument.  `SysTick_Init`, `SysTick_Start`, `SysTick_Stop`, `SysTick_DeInit`,
`SysTick_StartBusyWait` (during its loop and at any return) and the six NVIC functions
leave it as it was; a callback `f` registered before `SysTick_DeInit` followed by
`SysTick_Init` is the one that the next `SysTick_Handler` invokes. -/
theorem callback_slot_frame (body : Nat → RegFile → RegFile) (polls : Nat → Nat)
    (fuel d irq kind p f : Nat) (a : Option Nat) (m : Machine) :
    (SysTick_SetCallBack a m.regs).g_SysTickCallBackPtr = a ∧
    (SysTick_Init d m.regs).g_SysTickCallBackPtr = m.regs.g_SysTickCallBackPtr ∧
    (SysTick_Start m.regs).g_SysTickCallBackPtr = m.regs.g_SysTickCallBackPtr ∧
    (SysTick_Stop m.regs).g_SysTickCallBackPtr = m.regs.g_SysTickCallBackPtr ∧
    (SysTick_DeInit m.regs).g_SysTickCallBackPtr = m.regs.g_SysTickCallBackPtr ∧
    (SysTick_StartBusyWait_setup d m).regs.g_SysTickCallBackPtr
      = m.regs.g_SysTickCallBackPtr ∧
    (∀ r n, SysTick_StartBusyWait polls fuel d m = some (r, n) →
      r.regs.g_SysTickCallBackPtr = m.regs.g_SysTickCallBackPtr) ∧
    ((NVIC_EnableIRQ irq m.regs).g_SysTickCallBackPtr = m.regs.g_SysTickCallBackPtr ∧
      (NVIC_DisableIRQ irq m.regs).g_SysTickCallBackPtr = m.regs.g_SysTickCallBackPtr ∧
      (NVIC_SetPriorityIRQ irq p m.regs).g_SysTickCallBackPtr = m.regs.g_SysTickCallBackPtr ∧
      (NVIC_SetPriorityException kind p m.regs).g_SysTickCallBackPtr
        = m.regs.g_SysTickCallBackPtr ∧
      (NVIC_EnableException kind m.regs).g_SysTickCallBackPtr = m.regs.g_SysTickCallBackPtr ∧
      (NVIC_DisableException kind m.regs).g_SysTickCallBackPtr
        = m.regs.g_SysTickCallBackPtr) ∧
    (SysTick_Handler body
        (((m.exec (SysTick_SetCallBack (some f))).exec SysTick_DeInit).exec
          (SysTick_Init d))).invoked
      = m.invoked ++ [f] := by
  refine ⟨rfl, rfl, rfl, rfl, rfl, rfl, fun r n h => ?_,
    ⟨NVIC_EnableIRQ_callback irq _, NVIC_DisableIRQ_callback irq _, rfl,
      NVIC_SetPriorityException_callback kind p _, NVIC_EnableException_callback kind _,
      NVIC_DisableException_callback kind _⟩, ?_⟩
  · rw [SysTick_StartBusyWait_eq] at h
    cases hloop : busyWaitLoop polls fuel 0 with
    | none => rw [hloop] at h; simp at h
    | some k =>
      rw [hloop] at h
      simp only [Option.map_some', Option.some.injEq, Prod.mk.injEq] at h
      rw [← h.1]
      rfl
  · rw [SysTick_Handler_some body _ f rfl]
    rfl

/-! ## Write footprint of `NVIC_SetPriorityIRQ` -/

theorem NVIC_SetPriorityIRQ_PRI_apply (irq p : Nat) (s : RegFile) (k : Nat) :
    (NVIC_SetPriorityIRQ irq p s).NVIC_PRI k
      = if k = irq / 4 then
          toU32 ((s.NVIC_PRI (irq / 4) &&& not32 (shl32 0x07 ((irq % 4) * 8 + 5)))
                  ||| shl32 p ((irq % 4) * 8 + 5))
        else s.NVIC_PRI k := by
  simp only [NVIC_SetPriorityIRQ, fieldPos_u8]

theorem and_seven_eq_mod (p : Nat) : p &&& 7 = p % 8 := by
  apply Nat.eq_of_testBit_eq
  intro i
  have h : (8 : Nat) = 2 ^ 3 := by decide
  rw [testBit_and_seven, h, Nat.testBit_mod_two_pow]

theorem bool_field_comm (a x f1 f2 v1 v2 : Bool) (h1 : v1 = true → f2 = false)
    (h2 : v2 = true → f1 = false) :
    (a && (((a && ((x && !f2) || v2)) && !f1) || v1))
      = (a && (((a && ((x && !f1) || v1)) && !f2) || v2)) := by
  cases a <;> cases x <;> cases f1 <;> cases f2 <;> cases v1 <;> cases v2 <;> simp_all

/-- Two priority writes into one word at field offsets at least 8 apart commute. -/
theorem priorityWord_comm (x p q pos1 pos2 : Nat) (hp : p ≤ 255) (h : pos1 + 8 ≤ pos2) :
    toU32 ((toU32 ((x &&& not32 (shl32 0x07 pos2)) ||| shl32 q pos2)
              &&& not32 (shl32 0x07 pos1)) ||| shl32 p pos1)
      = toU32 ((toU32 ((x &&& not32 (shl32 0x07 pos1)) ||| shl32 p pos1)
              &&& not32 (shl32 0x07 pos2)) ||| shl32 q pos2) := by
  have hp8 : p < 2 ^ 8 := by
    have : (2 : Nat) ^ 8 = 256 := by decide
    omega
  apply Nat.eq_of_testBit_eq
  intro j
  rw [testBit_priorityWord, testBit_priorityWord, testBit_priorityWord, testBit_priorityWord]
  apply bool_field_comm
  · intro hv
    simp only [Bool.and_eq_true, decide_eq_true_eq] at hv
    have hlt : j - pos1 < 8 := by
      by_contra hc
      have hf := testBit_of_lt_two_pow hp8 (Nat.le_of_not_lt hc)
      rw [hf] at hv
      exact absurd hv.2 (by simp)
    have hn : ¬ pos2 ≤ j := by omega
    simp [hn]
  · intro hv
    simp only [Bool.and_eq_true, decide_eq_true_eq] at hv
    have hn : ¬ j - pos1 < 3 := by omega
    simp [hn]

theorem NVIC_SetPriorityIRQ_comm_PRI (irq p irq2 q : Nat) (s : RegFile)
    (hp : p ≤ 255) (hq : q ≤ 255) (hne : irq2 ≠ irq) (k : Nat) :
    (NVIC_SetPriorityIRQ irq p (NVIC_SetPriorityIRQ irq2 q s)).NVIC_PRI k
      = (NVIC_SetPriorityIRQ irq2 q (NVIC_SetPriorityIRQ irq p s)).NVIC_PRI k := by
  simp only [NVIC_SetPriorityIRQ_PRI_apply]
  by_cases hreg : irq / 4 = irq2 / 4
  · rw [hreg]
    by_cases hk : k = irq2 / 4
    · simp only [hk, if_true]
      by_cases hlt : irq % 4 < irq2 % 4
      · exact priorityWord_comm _ p q _ _ hp (by omega)
      · exact (priorityWord_comm _ q p _ _ hq (by omega)).symm
    · simp only [hk, if_false]
  · have hreg2 : ¬ irq2 / 4 = irq / 4 := fun e => hreg e.symm
    by_cases hk : k = irq / 4
    · subst hk
      simp only [if_true, if_neg hreg, if_neg hreg2]
    · by_cases hk2 : k = irq2 / 4
      · subst hk2
        simp only [if_true, if_neg hreg, if_neg hreg2]
      · simp only [if_neg hk, if_neg hk2]

/-- C20: for `irq` in [0,31], an 8-bit priority `p` (also above 7) and 32-bit registers,
with `off = (irq % 4) * 8 + 5`, `NVIC_SetPriorityIRQ(irq, p)` changes only bits of priority
register `irq / 4` that lie in `[off, off + 8)` and below 32; the 3-bit field at `off`
reads `p mod 8`; each bit `off + k` with `3 ≤ k ≤ 7` below 32 becomes the old bit OR bit
`k` of `p`; the 3-bit field of any other IRQ `irq2` in [0,31] is unchanged; and the calls
for two distinct IRQs commute. -/
theorem NVIC_SetPriorityIRQ_footprint (irq p irq2 q : Nat) (s : RegFile)
    (_hirq : irq < 32) (hp : p ≤ 255) (_hirq2 : irq2 < 32) (hq : q ≤ 255)
    (hne : irq2 ≠ irq) (hwf : s.WF) :
    (∀ j, ¬ ((irq % 4) * 8 + 5 ≤ j ∧ j < (irq % 4) * 8 + 5 + 8 ∧ j < 32) →
      ((NVIC_SetPriorityIRQ irq p s).NVIC_PRI (irq / 4)).testBit j
        = (s.NVIC_PRI (irq / 4)).testBit j) ∧
    (∀ k, k ≠ irq / 4 → (NVIC_SetPriorityIRQ irq p s).NVIC_PRI k = s.NVIC_PRI k) ∧
    NVIC_SetPriorityIRQ irq p s
      = { s with NVIC_PRI := (NVIC_SetPriorityIRQ irq p s).NVIC_PRI } ∧
    field3 ((NVIC_SetPriorityIRQ irq p s).NVIC_PRI (irq / 4)) ((irq % 4) * 8 + 5) = p % 8 ∧
    (∀ k, 3 ≤ k → k ≤ 7 → (irq % 4) * 8 + 5 + k < 32 →
      ((NVIC_SetPriorityIRQ irq p s).NVIC_PRI (irq / 4)).testBit ((irq % 4) * 8 + 5 + k)
        = ((s.NVIC_PRI (irq / 4)).testBit ((irq % 4) * 8 + 5 + k) || p.testBit k)) ∧
    field3 ((NVIC_SetPriorityIRQ irq p s).NVIC_PRI (irq2 / 4)) ((irq2 % 4) * 8 + 5)
      = field3 (s.NVIC_PRI (irq2 / 4)) ((irq2 % 4) * 8 + 5) ∧
    NVIC_SetPriorityIRQ irq p (NVIC_SetPriorityIRQ irq2 q s)
      = NVIC_SetPriorityIRQ irq2 q (NVIC_SetPriorityIRQ irq p s) := by
  have hx : s.NVIC_PRI (irq / 4) < 2 ^ 32 := hwf.2.1 _
  have hp8 : p < 2 ^ 8 := by
    have : (2 : Nat) ^ 8 = 256 := by decide
    omega
  refine ⟨?_, fun k hk => NVIC_SetPriorityIRQ_PRI_other irq p s k hk, rfl, ?_, ?_, ?_, ?_⟩
  · intro j hj
    rw [NVIC_SetPriorityIRQ_PRI, testBit_priorityWord]
    by_cases h32 : j < 32
    · by_cases h1 : (irq % 4) * 8 + 5 ≤ j
      · have h2 : ¬ j - ((irq % 4) * 8 + 5) < 3 := by omega
        have h3 : p.testBit (j - ((irq % 4) * 8 + 5)) = false :=
          testBit_of_lt_two_pow hp8 (by omega)
        simp [h32, h1, h2, h3]
      · simp [h32, h1]
    · simp [h32, testBit_of_lt_two_pow hx (Nat.le_of_not_lt h32)]
  · rw [NVIC_SetPriorityIRQ_PRI, field3_priorityWord_same _ _ _ (by omega), and_seven_eq_mod]
  · intro k hk3 hk7 hk32
    rw [NVIC_SetPriorityIRQ_PRI, testBit_priorityWord]
    have h1 : (irq % 4) * 8 + 5 ≤ (irq % 4) * 8 + 5 + k := by omega
    have h3 : (irq % 4) * 8 + 5 + k - ((irq % 4) * 8 + 5) = k := by omega
    have hk : ¬ k < 3 := by omega
    simp [hk32, h1, h3, hk]
  · by_cases hreg : irq2 / 4 = irq / 4
    · rw [hreg, NVIC_SetPriorityIRQ_PRI]
      exact field3_priorityWord_other _ _ _ _ hp (by omega) (by omega)
    · rw [NVIC_SetPriorityIRQ_PRI_other irq p s _ hreg]
  · have key := NVIC_SetPriorityIRQ_comm_PRI irq p irq2 q s hp hq hne
    calc NVIC_SetPriorityIRQ irq p (NVIC_SetPriorityIRQ irq2 q s)
        = { s with NVIC_PRI :=
              (NVIC_SetPriorityIRQ irq p (NVIC_SetPriorityIRQ irq2 q s)).NVIC_PRI } := rfl
      _ = { s with NVIC_PRI :=
              (NVIC_SetPriorityIRQ irq2 q (NVIC_SetPriorityIRQ irq p s)).NVIC_PRI } := by
            rw [funext key]
      _ = NVIC_SetPriorityIRQ irq2 q (NVIC_SetPriorityIRQ irq p s) := rfl

theorem NVIC_SetPriorityIRQ_footprint_witness :
    field3 ((NVIC_SetPriorityIRQ 0 255 RegFile.sample).NVIC_PRI (0 / 4)) ((0 % 4) * 8 + 5)
      = 255 % 8 ∧
    field3 ((NVIC_SetPriorityIRQ 0 255 RegFile.sample).NVIC_PRI (1 / 4)) ((1 % 4) * 8 + 5)
      = field3 (RegFile.sample.NVIC_PRI (1 / 4)) ((1 % 4) * 8 + 5) ∧
    NVIC_SetPriorityIRQ 0 255 (NVIC_SetPriorityIRQ 1 9 RegFile.sample)
      = NVIC_SetPriorityIRQ 1 9 (NVIC_SetPriorityIRQ 0 255 RegFile.sample) :=
  ⟨(NVIC_SetPriorityIRQ_footprint 0 255 1 9 RegFile.sample (by decide) (by decide)
      (by decide) (by decide) (by decide) RegFile.sample_WF).2.2.2.1,
    (NVIC_SetPriorityIRQ_footprint 0 255 1 9 RegFile.sample (by decide) (by decide)
      (by decide) (by decide) (by decide) RegFile.sample_WF).2.2.2.2.2.1,
    (NVIC_SetPriorityIRQ_footprint 0 255 1 9 RegFile.sample (by decide) (by decide)
      (by decide) (by decide) (by decide) RegFile.sample_WF).2.2.2.2.2.2⟩

end CortexM
